import Mathlib

/-!
Verification of the hfsutils on-disk engine against its specification.

The definitions below are shallow embeddings of the C sources:
  * `src/src/fsck/journal.c`          — journal validation, replay, disable
  * `src/src/fsck/hfsplus_check.c`    — HFS+ volume header check and repair
  * `src/src/embedded/fsck/hfs_check.c` — HFS checker (MDB, bitmap, B-tree walk)
  * `src/src/mkfs/mkfs_hfs_format.c`  — HFS formatter
  * `src/src/common/hfs_detect.c` with `hfs_detect.h` — volume info decoding
  * `src/src/common/hfsplus_format.c` — HFS+ volume header writer

A device is modelled as a total function from byte offsets to byte values;
multi-byte on-disk integers are big-endian, exactly as in the sources.
Machine-integer overflow is made explicit with `% 2^w` where the C width
matters.  Functions that in C perform writes additionally return a trace of
write/sync events so that ordering claims can be stated.
-/

namespace Hfs

/-- A byte-addressable device: the byte stored at each absolute offset. -/
def Device : Type := Nat → Nat

/-- Read `len` bytes starting at `off` (each reduced to a byte, as the C
reads into `uint8_t` buffers). -/
def readBytes (d : Device) (off len : Nat) : List Nat :=
  (List.range len).map (fun i => d (off + i) % 256)

/-- Overwrite the device with the bytes of `l` starting at offset `off`. -/
def writeBytes (d : Device) (off : Nat) (l : List Nat) : Device :=
  fun n => if off ≤ n ∧ n < off + l.length then l.getD (n - off) 0 else d n

/-- Big-endian value of a byte list (most significant byte first). -/
def beVal (l : List Nat) : Nat :=
  l.foldl (fun acc b => acc * 256 + b % 256) 0

/-- Big-endian encoding of `v` on `n` bytes (truncating to `n` bytes, as a
store through a `uintN_t` does). -/
def beBytes : Nat → Nat → List Nat
  | 0, _ => []
  | n + 1, v => beBytes n (v / 256) ++ [v % 256]

/-- Big-endian decode of `n` bytes of the device starting at `off`. -/
def beAt (d : Device) (off n : Nat) : Nat :=
  beVal (readBytes d off n)

/-- Decode a big-endian `uint16_t` field. -/
def be16 (d : Device) (off : Nat) : Nat := beAt d off 2

/-- Decode a big-endian `uint32_t` field. -/
def be32 (d : Device) (off : Nat) : Nat := beAt d off 4

/-- Decode a big-endian `uint64_t` field. -/
def be64 (d : Device) (off : Nat) : Nat := beAt d off 8

/-- Accumulating loop of `journal_calculate_checksum`: sum the 32-bit
big-endian words of the byte list into a wrapping `uint32_t` accumulator,
ignoring a trailing fragment shorter than 4 bytes (the C truncates the size
to a multiple of 4). -/
def checksumGo : List Nat → Nat → Nat
  | b0 :: b1 :: b2 :: b3 :: rest, acc =>
      checksumGo rest
        ((acc + ((((b0 % 256) * 256 + b1 % 256) * 256 + b2 % 256) * 256 + b3 % 256))
          % 4294967296)
  | _, acc => acc

/-- Embedding of `journal_calculate_checksum` from `src/src/fsck/journal.c`. -/
def journal_calculate_checksum (l : List Nat) : Nat :=
  checksumGo l 0

/-- Basic sanity lemma: the checksum accumulator stays below `2 ^ 32`. -/
theorem checksumGo_lt : ∀ (l : List Nat) (acc : Nat), acc < 4294967296 →
    checksumGo l acc < 4294967296
  | [], _, h => by simpa [checksumGo] using h
  | [_], _, h => by simpa [checksumGo] using h
  | [_, _], _, h => by simpa [checksumGo] using h
  | [_, _, _], _, h => by simpa [checksumGo] using h
  | _ :: _ :: _ :: _ :: rest, _, _ => by
      rw [checksumGo]
      exact checksumGo_lt rest _ (Nat.mod_lt _ (by norm_num))

theorem journal_calculate_checksum_lt (l : List Nat) :
    journal_calculate_checksum l < 4294967296 :=
  checksumGo_lt l 0 (by norm_num)

/-! ## Journal structures (`src/src/fsck/journal.h`, `journal.c`)

`struct HFSPlus_JournalInfoBlock` is 484 bytes: `flags` at 0,
`deviceSignature` at 4, `offset` at 36, `size` at 44, reserved at 52.
`struct HFSPlus_JournalHeader` is 132 bytes: `magic` 0, `endian` 4,
`start` 8, `end` 16, `size` 24, `blhdrSize` 32, `checksum` 36,
`jhdrSize` 40, reserved 44.
`struct HFSPlus_BlockListHeader` is 40 bytes: `bsize` 0, `numBlocks` 2,
`checksum` 4, reserved 8.  `struct HFSPlus_BlockInfo` is 20 bytes:
`bnum` 0, `bsize` 8, `next` 12. -/

def JOURNAL_MAGIC : Nat := 0x4A4E4C78

def JOURNAL_ENDIAN : Nat := 0x12345678

/-- The fields of `struct HFSPlus_VolumeHeader` (the simplified header of
`fsck_hfs.h`) that the journal functions consult, held as decoded
host-order values exactly as the C obtains them via `be32toh`. -/
structure SimpleVH where
  attributes : Nat
  journalInfoBlock : Nat
  blockSize : Nat
  totalBlocks : Nat

/-- In-memory `struct HFSPlus_JournalHeader`: the decoded fields plus the
raw reserved tail, which the C keeps and writes back verbatim. -/
structure JournalHeader where
  magic : Nat
  endian : Nat
  start : Nat
  jEnd : Nat
  size : Nat
  blhdrSize : Nat
  checksum : Nat
  jhdrSize : Nat
  reserved : List Nat

/-- Decode a journal header from the device at offset `off`. -/
def parseJH (d : Device) (off : Nat) : JournalHeader :=
  { magic := be32 d off
    endian := be32 d (off + 4)
    start := be64 d (off + 8)
    jEnd := be64 d (off + 16)
    size := be64 d (off + 24)
    blhdrSize := be32 d (off + 32)
    checksum := be32 d (off + 36)
    jhdrSize := be32 d (off + 40)
    reserved := readBytes d (off + 44) 88 }

/-- Serialize a journal header to its 132-byte on-disk form. -/
def serializeJH (h : JournalHeader) : List Nat :=
  beBytes 4 h.magic ++ beBytes 4 h.endian ++ beBytes 8 h.start ++
  beBytes 8 h.jEnd ++ beBytes 8 h.size ++ beBytes 4 h.blhdrSize ++
  beBytes 4 h.checksum ++ beBytes 4 h.jhdrSize ++ h.reserved.map (· % 256)

/-- The 484-byte journal info block with the `NEED_INIT` flag (bit 1) set,
as built by `journal_replay` before writing it back on a corruption path:
`jib.flags = htobe32(be32toh(jib.flags) | JOURNAL_NEED_INIT)`. -/
def needInitBytes (jibBytes : List Nat) : List Nat :=
  beBytes 4 (beVal (jibBytes.take 4) ||| 2) ++ jibBytes.drop 4

/-- Write/sync events, to state ordering properties of repairs. -/
inductive Ev
  | write (off len : Nat)
  | sync
deriving DecidableEq, Repr

/-- The distinct `return` sites of `journal_replay` that signal an error;
`jerrCode` maps each to the `errno`-style value the C returns. -/
inductive JErr
  | onOtherDevice
  | badHeader
  | blhChecksum
  | badNumBlocks
  | badBlockSize
  | badBlockNum
  | tooManyTxns
deriving DecidableEq, Repr

def jerrCode : JErr → Int
  | _ => -22

/-- Inner loop of `journal_replay`: process the `numBlocks` block-info
records of one transaction, replaying each payload to the volume in repair
mode.  Returns the new journal position.  `jo` is the journal byte offset,
`jSize` its size; a position past the end wraps to
`sizeof(struct HFSPlus_JournalHeader)` = 132. -/
def replayBlocks (jo blockSize totalBlocks jSize : Nat) (repair : Bool) :
    Nat → Nat → Device → List Ev →
    Except (JErr × Device × List Ev) (Nat × Device × List Ev)
  | 0, pos, d, tr => .ok (pos, d, tr)
  | i + 1, pos, d, tr =>
    let bnum := be64 d (jo + pos)
    let bsize := be32 d (jo + pos + 8)
    let next := be64 d (jo + pos + 12)
    if bsize = 0 ∨ bsize > blockSize * 8 then .error (.badBlockSize, d, tr)
    else if bnum ≥ totalBlocks then .error (.badBlockNum, d, tr)
    else
      let pos2 := pos + 20
      let payload := readBytes d (jo + pos2) bsize
      let d2 := if repair then writeBytes d (bnum * blockSize) payload else d
      let tr2 := if repair then tr ++ [Ev.write (bnum * blockSize) bsize] else tr
      let pos3 := if next ≥ jSize then 132 else next
      replayBlocks jo blockSize totalBlocks jSize repair i pos3 d2 tr2

/-- Outer loop of `journal_replay`: walk the transactions from `pos` until
the journal end; the fuel models `max_transactions = 1000`, and running out
of fuel is the `Too many transactions` error, exactly as in the C (the
check `transaction_count >= max_transactions` fires even when the final
position has reached `end`).  On a block-list checksum mismatch in repair
mode, the journal info block is rewritten with `NEED_INIT` set before the
error returns. -/
def replayTxns (jo jibOff : Nat) (jibBytes : List Nat)
    (blockSize totalBlocks jSize endPos : Nat) (repair : Bool) :
    Nat → Nat → Nat → Device → List Ev →
    Except (JErr × Device × List Ev) (Nat × Device × List Ev)
  | 0, _, _, d, tr => .error (.tooManyTxns, d, tr)
  | fuel + 1, pos, replayed, d, tr =>
    if pos = endPos then .ok (replayed, d, tr)
    else
      let storedCk := be32 d (jo + pos + 4)
      let calcCk := journal_calculate_checksum
        (readBytes d (jo + pos) 4 ++ [0, 0, 0, 0] ++ readBytes d (jo + pos + 8) 32)
      if calcCk ≠ storedCk then
        if repair then
          .error (.blhChecksum, writeBytes d jibOff (needInitBytes jibBytes),
            tr ++ [Ev.write jibOff 484])
        else .error (.blhChecksum, d, tr)
      else
        let numBlocks := be16 d (jo + pos + 2)
        if numBlocks = 0 ∨ numBlocks > 1000 then .error (.badNumBlocks, d, tr)
        else
          match replayBlocks jo blockSize totalBlocks jSize repair numBlocks
              (pos + 40) d tr with
          | .error e => .error e
          | .ok (pos2, d2, tr2) =>
            replayTxns jo jibOff jibBytes blockSize totalBlocks jSize endPos
              repair fuel pos2 (replayed + 1) d2 tr2

/-- Embedding of `journal_replay` from `src/src/fsck/journal.c`.  On
success it returns the number of transactions replayed together with the
resulting device and the trace of writes and syncs; each error constructor
corresponds to one `return` site of the C function (I/O failures and
`malloc` failure are not modelled: the modelled device never fails).
Note that the journal header is read once at the start; the final header
update in repair mode rewrites that in-memory copy with `start := end` and
a freshly computed checksum (checksum field zeroed during computation),
then syncs. -/
def journal_replay (d : Device) (vh : SimpleVH) (repair : Bool) :
    Except (JErr × Device × List Ev) (Nat × Device × List Ev) :=
  let jibOff := vh.journalInfoBlock * vh.blockSize
  let flags := be32 d jibOff
  if flags &&& 1 ≠ 0 then .error (.onOtherDevice, d, [])
  else
    let jo := be64 d (jibOff + 36)
    let jh0 := parseJH d jo
    if jh0.magic ≠ JOURNAL_MAGIC ∨ jh0.endian ≠ JOURNAL_ENDIAN then
      if repair then
        let jibBytes := readBytes d jibOff 484
        .error (.badHeader, writeBytes d jibOff (needInitBytes jibBytes),
          [Ev.write jibOff 484])
      else .error (.badHeader, d, [])
    else if jh0.start = jh0.jEnd then .ok (0, d, [])
    else
      let jibBytes := readBytes d jibOff 484
      match replayTxns jo jibOff jibBytes vh.blockSize vh.totalBlocks jh0.size
          jh0.jEnd repair 1000 jh0.start 0 d [] with
      | .error e => .error e
      | .ok (replayed, d2, tr2) =>
        if repair ∧ replayed > 0 then
          let jh1 := { jh0 with start := jh0.jEnd, checksum := 0 }
          let ck := journal_calculate_checksum (serializeJH jh1)
          let jh2 := { jh1 with checksum := ck }
          (.ok (replayed, writeBytes d2 jo (serializeJH jh2),
            tr2 ++ [Ev.write jo 132, Ev.sync]))
        else .ok (replayed, d2, tr2)

/-- The `int` value `journal_replay` returns to its C callers. -/
def journal_replay_code (d : Device) (vh : SimpleVH) (repair : Bool) : Int :=
  match journal_replay d vh repair with
  | .error (e, _, _) => jerrCode e
  | .ok (n, _, _) => n

/-- The journal-header portion of the `journal_is_valid` check chain:
magic, endian sentinel, size agreement with the info block, start/end
bounds, and the zero-checksum comparison, each rejecting with -1 exactly
as in the C. -/
def journal_header_checks (jh : JournalHeader) (jSize calcCk : Nat) : Int :=
  if jh.magic ≠ JOURNAL_MAGIC then -1
  else if jh.endian ≠ JOURNAL_ENDIAN then -1
  else if jh.size ≠ jSize then -1
  else if jh.start > jh.size ∨ jh.jEnd > jh.size then -1
  else if jh.checksum ≠ calcCk then -1 else 1

/-- Embedding of `journal_is_valid` from `src/src/fsck/journal.c`: the
exact chain of validation checks, returning 0 for a non-journaled volume,
-1 for any rejection, 1 for a valid journal. -/
def journal_is_valid (d : Device) (vh : SimpleVH) : Int :=
  if vh.attributes &&& 0x2000 = 0 then 0
  else if vh.journalInfoBlock = 0 then -1
  else if vh.journalInfoBlock ≥ vh.totalBlocks then -1
  else
    let jibOff := vh.journalInfoBlock * vh.blockSize
    let flags := be32 d jibOff
    if flags &&& 1 ≠ 0 then -1
    else if flags &&& 2 ≠ 0 then -1
    else
      let jOff := be64 d (jibOff + 36)
      let jSize := be64 d (jibOff + 44)
      if jOff = 0 then -1
      else if jSize = 0 then -1
      else if jOff + jSize > vh.totalBlocks * vh.blockSize then -1
      else
        journal_header_checks (parseJH d jOff) jSize
          (journal_calculate_checksum
            (readBytes d jOff 36 ++ [0, 0, 0, 0] ++ readBytes d (jOff + 40) 92))

/-- Embedding of `journal_disable` from `src/src/fsck/journal.c`: clear the
`JOURNALED` attribute bit, zero `journalInfoBlock`, then write the primary
header at 1024 and the backup header at `(totalBlocks - 2) * blockSize +
1024` (a 112-byte `struct HFSPlus_VolumeHeader` each), then sync.
`totalBlocks - 2` is `uint32_t` arithmetic. -/
def journal_disable (vh : SimpleVH) : SimpleVH × List Ev :=
  let vh2 : SimpleVH :=
    { vh with attributes := vh.attributes &&& 0xFFFFDFFF, journalInfoBlock := 0 }
  (vh2,
    [Ev.write 1024 112,
     Ev.write (((vh2.totalBlocks + 4294967296 - 2) % 4294967296) * vh2.blockSize + 1024) 112,
     Ev.sync])

/-! ## Byte-level lemmas: reads after writes, big-endian round trips -/

theorem readBytes_length (d : Device) (off n : Nat) :
    (readBytes d off n).length = n := by
  simp [readBytes]

theorem readBytes_mem_lt (d : Device) (off n : Nat) {b : Nat}
    (h : b ∈ readBytes d off n) : b < 256 := by
  simp only [readBytes, List.mem_map] at h
  obtain ⟨i, _, rfl⟩ := h
  exact Nat.mod_lt _ (by norm_num)

theorem length_beBytes : ∀ n v, (beBytes n v).length = n
  | 0, _ => rfl
  | n + 1, v => by simp [beBytes, length_beBytes n]

theorem beVal_snoc (l : List Nat) (b : Nat) :
    beVal (l ++ [b]) = beVal l * 256 + b % 256 := by
  simp [beVal, List.foldl_append]

theorem beVal_lt (l : List Nat) : beVal l < 256 ^ l.length := by
  induction l using List.reverseRecOn with
  | nil => simp [beVal]
  | append_singleton l b ih =>
    rw [beVal_snoc]
    have hb : b % 256 < 256 := Nat.mod_lt _ (by norm_num)
    have : beVal l ≤ 256 ^ l.length - 1 := by omega
    have h2 : beVal l * 256 ≤ (256 ^ l.length - 1) * 256 :=
      Nat.mul_le_mul_right _ this
    have hp : 1 ≤ 256 ^ l.length := Nat.one_le_pow _ _ (by norm_num)
    simp only [List.length_append, List.length_singleton, pow_succ]
    omega

theorem beVal_beBytes : ∀ n v, beVal (beBytes n v) = v % 256 ^ n
  | 0, v => by simp [beBytes, beVal, Nat.mod_one]
  | n + 1, v => by
    rw [beBytes, beVal_snoc, beVal_beBytes n (v / 256), pow_succ']
    rw [Nat.mod_mul]
    simp only [Nat.mod_mod_of_dvd _ (dvd_refl 256)]
    ring

theorem beVal_map_mod (l : List Nat) : beVal (l.map (· % 256)) = beVal l := by
  have key : ∀ (l : List Nat) (acc : Nat),
      (l.map (· % 256)).foldl (fun acc b => acc * 256 + b % 256) acc =
      l.foldl (fun acc b => acc * 256 + b % 256) acc := by
    intro l
    induction l with
    | nil => intro acc; rfl
    | cons b rest ih =>
      intro acc
      simp only [List.map_cons, List.foldl_cons,
        Nat.mod_mod_of_dvd b (dvd_refl 256)]
      exact ih _
  exact key l 0

theorem beVal_map_id {l : List Nat} (h : ∀ b ∈ l, b < 256) :
    l.map (· % 256) = l := by
  have hcong : l.map (· % 256) = l.map id :=
    List.map_congr_left fun b hb => Nat.mod_eq_of_lt (h b hb)
  simpa using hcong

theorem writeBytes_apply (d : Device) (off : Nat) (l : List Nat) (n : Nat) :
    writeBytes d off l n =
      if off ≤ n ∧ n < off + l.length then l.getD (n - off) 0 else d n := rfl

theorem readBytes_writeBytes_slice (d : Device) (off : Nat) (l : List Nat)
    (k n : Nat) (h : k + n ≤ l.length) :
    readBytes (writeBytes d off l) (off + k) n =
      ((l.drop k).take n).map (· % 256) := by
  apply List.ext_getElem
  · simp [readBytes_length]; omega
  · intro i h1 h2
    have hi : i < n := by simpa [readBytes_length] using h1
    have hk : k + i < l.length := by omega
    simp only [readBytes, List.getElem_map, List.getElem_range,
      List.getElem_take, List.getElem_drop]
    rw [writeBytes_apply]
    have hc : off ≤ off + k + i ∧ off + k + i < off + l.length :=
      ⟨by omega, by omega⟩
    rw [if_pos hc]
    have harith : off + k + i - off = k + i := by omega
    rw [harith, List.getD_eq_getElem l 0 hk]

theorem slice_append (pre mid post : List Nat) :
    (((pre ++ (mid ++ post)).drop pre.length).take mid.length) = mid := by
  rw [List.drop_left, List.take_left]

theorem beAt_write_chunk (d : Device) (off : Nat) (pre mid post : List Nat) :
    beAt (writeBytes d off (pre ++ (mid ++ post))) (off + pre.length)
      mid.length = beVal mid := by
  rw [beAt, readBytes_writeBytes_slice _ _ _ _ _ (by simp), slice_append,
    beVal_map_mod]

theorem beAt_serialize (d : Device) (off : Nat) (S pre mid post : List Nat)
    (k n : Nat) (hs : S = pre ++ (mid ++ post)) (hp : pre.length = k)
    (hm : mid.length = n) :
    beAt (writeBytes d off S) (off + k) n = beVal mid := by
  subst hs; subst hp; subst hm
  exact beAt_write_chunk d off pre mid post

theorem pow256_4 : (256 : Nat) ^ 4 = 4294967296 := by norm_num

theorem pow256_8 : (256 : Nat) ^ 8 = 18446744073709551616 := by norm_num

/-- Round trip: writing a serialized journal header to the device and
decoding it at the same offset recovers the header, provided its fields fit
their on-disk widths. -/
theorem parseJH_writeBytes (d : Device) (off : Nat) (h : JournalHeader)
    (h1 : h.magic < 4294967296) (h2 : h.endian < 4294967296)
    (h3 : h.start < 18446744073709551616)
    (h4 : h.jEnd < 18446744073709551616)
    (h5 : h.size < 18446744073709551616)
    (h6 : h.blhdrSize < 4294967296) (h7 : h.checksum < 4294967296)
    (h8 : h.jhdrSize < 4294967296) (h9 : h.reserved.length = 88)
    (h10 : ∀ b ∈ h.reserved, b < 256) :
    parseJH (writeBytes d off (serializeJH h)) off = h := by
  obtain ⟨m, e, s, en, sz, bl, ck, jh, res⟩ := h
  set S : List Nat := serializeJH ⟨m, e, s, en, sz, bl, ck, jh, res⟩ with hS
  have f1 : be32 (writeBytes d off S) off = m := by
    have hx := beAt_serialize d off S []
      (beBytes 4 m)
      (beBytes 4 e ++ (beBytes 8 s ++ (beBytes 8 en ++ (beBytes 8 sz ++
        (beBytes 4 bl ++ (beBytes 4 ck ++ (beBytes 4 jh ++ res.map (· % 256))))))))
      0 4 (by rw [hS]; simp [serializeJH]) rfl (length_beBytes 4 m)
    rw [beVal_beBytes, pow256_4, Nat.mod_eq_of_lt h1] at hx
    exact hx
  have f2 : be32 (writeBytes d off S) (off + 4) = e := by
    have hx := beAt_serialize d off S (beBytes 4 m)
      (beBytes 4 e)
      (beBytes 8 s ++ (beBytes 8 en ++ (beBytes 8 sz ++
        (beBytes 4 bl ++ (beBytes 4 ck ++ (beBytes 4 jh ++ res.map (· % 256)))))))
      4 4 (by rw [hS]; simp [serializeJH]) (length_beBytes 4 m) (length_beBytes 4 e)
    rw [beVal_beBytes, pow256_4, Nat.mod_eq_of_lt h2] at hx
    exact hx
  have f3 : be64 (writeBytes d off S) (off + 8) = s := by
    have hx := beAt_serialize d off S (beBytes 4 m ++ beBytes 4 e)
      (beBytes 8 s)
      (beBytes 8 en ++ (beBytes 8 sz ++
        (beBytes 4 bl ++ (beBytes 4 ck ++ (beBytes 4 jh ++ res.map (· % 256))))))
      8 8 (by rw [hS]; simp [serializeJH]) (by simp [length_beBytes]) (length_beBytes 8 s)
    rw [beVal_beBytes, pow256_8, Nat.mod_eq_of_lt h3] at hx
    exact hx
  have f4 : be64 (writeBytes d off S) (off + 16) = en := by
    have hx := beAt_serialize d off S
      (beBytes 4 m ++ beBytes 4 e ++ beBytes 8 s)
      (beBytes 8 en)
      (beBytes 8 sz ++ (beBytes 4 bl ++ (beBytes 4 ck ++ (beBytes 4 jh ++ res.map (· % 256)))))
      16 8 (by rw [hS]; simp [serializeJH]) (by simp [length_beBytes]) (length_beBytes 8 en)
    rw [beVal_beBytes, pow256_8, Nat.mod_eq_of_lt h4] at hx
    exact hx
  have f5 : be64 (writeBytes d off S) (off + 24) = sz := by
    have hx := beAt_serialize d off S
      (beBytes 4 m ++ beBytes 4 e ++ beBytes 8 s ++ beBytes 8 en)
      (beBytes 8 sz)
      (beBytes 4 bl ++ (beBytes 4 ck ++ (beBytes 4 jh ++ res.map (· % 256))))
      24 8 (by rw [hS]; simp [serializeJH]) (by simp [length_beBytes]) (length_beBytes 8 sz)
    rw [beVal_beBytes, pow256_8, Nat.mod_eq_of_lt h5] at hx
    exact hx
  have f6 : be32 (writeBytes d off S) (off + 32) = bl := by
    have hx := beAt_serialize d off S
      (beBytes 4 m ++ beBytes 4 e ++ beBytes 8 s ++ beBytes 8 en ++ beBytes 8 sz)
      (beBytes 4 bl)
      (beBytes 4 ck ++ (beBytes 4 jh ++ res.map (· % 256)))
      32 4 (by rw [hS]; simp [serializeJH]) (by simp [length_beBytes]) (length_beBytes 4 bl)
    rw [beVal_beBytes, pow256_4, Nat.mod_eq_of_lt h6] at hx
    exact hx
  have f7 : be32 (writeBytes d off S) (off + 36) = ck := by
    have hx := beAt_serialize d off S
      (beBytes 4 m ++ beBytes 4 e ++ beBytes 8 s ++ beBytes 8 en ++ beBytes 8 sz ++ beBytes 4 bl)
      (beBytes 4 ck)
      (beBytes 4 jh ++ res.map (· % 256))
      36 4 (by rw [hS]; simp [serializeJH]) (by simp [length_beBytes]) (length_beBytes 4 ck)
    rw [beVal_beBytes, pow256_4, Nat.mod_eq_of_lt h7] at hx
    exact hx
  have f8 : be32 (writeBytes d off S) (off + 40) = jh := by
    have hx := beAt_serialize d off S
      (beBytes 4 m ++ beBytes 4 e ++ beBytes 8 s ++ beBytes 8 en ++ beBytes 8 sz ++
        beBytes 4 bl ++ beBytes 4 ck)
      (beBytes 4 jh)
      (res.map (· % 256))
      40 4 (by rw [hS]; simp [serializeJH]) (by simp [length_beBytes]) (length_beBytes 4 jh)
    rw [beVal_beBytes, pow256_4, Nat.mod_eq_of_lt h8] at hx
    exact hx
  have f9 : readBytes (writeBytes d off S) (off + 44) 88 = res := by
    have hlen : (44 : Nat) + 88 ≤ S.length := by
      rw [hS]; simp [serializeJH, length_beBytes, h9]
    rw [readBytes_writeBytes_slice d off S 44 88 hlen]
    have hdrop : S.drop 44 = res.map (· % 256) := by
      have hsplit : S =
          (beBytes 4 m ++ beBytes 4 e ++ beBytes 8 s ++ beBytes 8 en ++ beBytes 8 sz ++
            beBytes 4 bl ++ beBytes 4 ck ++ beBytes 4 jh) ++ res.map (· % 256) := by
        rw [hS]; simp [serializeJH]
      have hplen : (beBytes 4 m ++ beBytes 4 e ++ beBytes 8 s ++ beBytes 8 en ++ beBytes 8 sz ++
          beBytes 4 bl ++ beBytes 4 ck ++ beBytes 4 jh).length = 44 := by
        simp [length_beBytes]
      rw [hsplit, ← hplen, List.drop_left]
    rw [hdrop]
    have htake : (res.map (· % 256)).take 88 = res.map (· % 256) :=
      List.take_of_length_le (by simp [h9])
    rw [htake]
    have hmm : (res.map (· % 256)).map (· % 256) = res.map (· % 256) :=
      beVal_map_id (by
        intro b hb
        simp only [List.mem_map] at hb
        obtain ⟨a, _, rfl⟩ := hb
        exact Nat.mod_lt _ (by norm_num))
    rw [hmm, beVal_map_id h10]
  simp only [parseJH, JournalHeader.mk.injEq]
  exact ⟨f1, f2, f3, f4, f5, f6, f7, f8, f9⟩

theorem be32_lt (d : Device) (off : Nat) : be32 d off < 4294967296 := by
  have h := beVal_lt (readBytes d off 4)
  rwa [readBytes_length, pow256_4] at h

theorem be64_lt (d : Device) (off : Nat) :
    be64 d off < 18446744073709551616 := by
  have h := beVal_lt (readBytes d off 8)
  rwa [readBytes_length, pow256_8] at h

/-! ## Projections of the result of `journal_replay` -/

/-- The error constructor of a failed replay, if any. -/
def replayErr (d : Device) (vh : SimpleVH) (repair : Bool) : Option JErr :=
  match journal_replay d vh repair with
  | .error (e, _, _) => some e
  | .ok _ => none

/-- The device state after `journal_replay` returns (on either path). -/
def replayDev (d : Device) (vh : SimpleVH) (repair : Bool) : Device :=
  match journal_replay d vh repair with
  | .error (_, d2, _) => d2
  | .ok (_, d2, _) => d2

/-- The write/sync trace `journal_replay` produced. -/
def replayTrace (d : Device) (vh : SimpleVH) (repair : Bool) : List Ev :=
  match journal_replay d vh repair with
  | .error (_, _, tr) => tr
  | .ok (_, _, tr) => tr

/-- After writing `needInitBytes`, the decoded journal-info-block flags have
bit 1 (`JOURNAL_NEED_INIT`) set. -/
theorem needInit_flag_set (d : Device) (jibOff : Nat) (jibBytes : List Nat) :
    be32 (writeBytes d jibOff (needInitBytes jibBytes)) jibOff &&& 2 ≠ 0 := by
  have hx := beAt_serialize d jibOff (needInitBytes jibBytes) []
    (beBytes 4 (beVal (jibBytes.take 4) ||| 2)) (jibBytes.drop 4) 0 4
    (by simp [needInitBytes]) rfl (length_beBytes 4 _)
  have hv : beVal (jibBytes.take 4) ||| 2 < 4294967296 := by
    have h1 : beVal (jibBytes.take 4) < 4294967296 := by
      have := beVal_lt (jibBytes.take 4)
      have hle : (jibBytes.take 4).length ≤ 4 := by
        simp [List.length_take]
      calc beVal (jibBytes.take 4) < 256 ^ (jibBytes.take 4).length := this
        _ ≤ 256 ^ 4 := Nat.pow_le_pow_right (by norm_num) hle
        _ = 4294967296 := pow256_4
    have h1p : beVal (jibBytes.take 4) < 2 ^ 32 := by
      rw [show (2:Nat)^32 = 4294967296 by norm_num]; exact h1
    have h2p : (2 : Nat) < 2 ^ 32 := by norm_num
    have h3 := Nat.or_lt_two_pow h1p h2p
    rwa [show (2:Nat)^32 = 4294967296 by norm_num] at h3
  rw [beVal_beBytes, pow256_4, Nat.mod_eq_of_lt hv] at hx
  have hzero : be32 (writeBytes d jibOff (needInitBytes jibBytes)) jibOff =
      beVal (jibBytes.take 4) ||| 2 := hx
  rw [hzero]
  have hbit : (beVal (jibBytes.take 4) ||| 2).testBit 1 = true := by
    rw [Nat.testBit_lor]
    simp [Nat.testBit]
  have := Nat.and_two_pow (beVal (jibBytes.take 4) ||| 2) 1
  rw [show (2:Nat)^1 = 2 by norm_num] at this
  rw [this, hbit]
  norm_num

/-- The inner block loop of the replay only fails with a block-size or
block-number error, never a checksum error. -/
theorem replayBlocks_no_checksum (jo bs tb js : Nat) (repair : Bool) :
    ∀ (i pos : Nat) (d : Device) (tr : List Ev) (e : JErr) (d2 : Device)
      (tr2 : List Ev),
    replayBlocks jo bs tb js repair i pos d tr = .error (e, d2, tr2) →
    e = .badBlockSize ∨ e = .badBlockNum
  | 0, pos, d, tr, e, d2, tr2, h => by simp [replayBlocks] at h
  | i + 1, pos, d, tr, e, d2, tr2, h => by
    rw [replayBlocks] at h
    split at h
    · simp only [Except.error.injEq, Prod.mk.injEq] at h
      exact Or.inl h.1.symm
    · split at h
      · simp only [Except.error.injEq, Prod.mk.injEq] at h
        exact Or.inr h.1.symm
      · exact replayBlocks_no_checksum jo bs tb js repair i _ _ _ e d2 tr2 h

/-- Whenever the transaction loop fails with a block-list checksum error in
repair mode, the returned device carries the journal info block rewritten
with `NEED_INIT` set, and the trace ends with that write. -/
theorem replayTxns_checksum_marks (jo jibOff : Nat) (jibBytes : List Nat)
    (bs tb js ep : Nat) :
    ∀ (fuel pos rep : Nat) (d : Device) (tr : List Ev) (d2 : Device)
      (tr2 : List Ev),
    replayTxns jo jibOff jibBytes bs tb js ep true fuel pos rep d tr =
      .error (.blhChecksum, d2, tr2) →
    (be32 d2 jibOff &&& 2 ≠ 0) ∧ ∃ tr0, tr2 = tr0 ++ [Ev.write jibOff 484]
  | 0, pos, rep, d, tr, d2, tr2, h => by simp [replayTxns] at h
  | fuel + 1, pos, rep, d, tr, d2, tr2, h => by
    rw [replayTxns] at h
    simp only [if_true] at h
    split at h
    · simp at h
    · split at h
      · simp only [Except.error.injEq, Prod.mk.injEq] at h
        obtain ⟨-, hd, htr⟩ := h
        subst hd; subst htr
        exact ⟨needInit_flag_set d jibOff jibBytes, tr, rfl⟩
      · split at h
        · simp at h
        · cases hblk : replayBlocks jo bs tb js true (be16 d (jo + pos + 2))
              (pos + 40) d tr with
          | error e2 =>
            rw [hblk] at h
            have he2 : e2 = (JErr.blhChecksum, d2, tr2) := by simpa using h
            rcases replayBlocks_no_checksum jo bs tb js true _ _ _ _ _ _ _
              (he2 ▸ hblk) with hc | hc <;> simp at hc
          | ok v =>
            obtain ⟨pos2, d3, tr3⟩ := v
            rw [hblk] at h
            exact replayTxns_checksum_marks jo jibOff jibBytes bs tb js ep
              fuel pos2 (rep + 1) d3 tr3 d2 tr2 h

/-! ## Claim theorems about the journal -/

/-- C2: for every valid HFS+ journal whose header has `start == end`,
`journal_replay` performs no write to the device and returns 0 (so the
whole device, not just the non-header bytes, is left unchanged), in both
repair and non-repair mode. -/
theorem journal_replay_clean_is_noop (d : Device) (vh : SimpleVH)
    (repair : Bool)
    (hflags : be32 d (vh.journalInfoBlock * vh.blockSize) &&& 1 = 0)
    (hmagic : (parseJH d (be64 d (vh.journalInfoBlock * vh.blockSize + 36))).magic
      = JOURNAL_MAGIC)
    (hendian : (parseJH d (be64 d (vh.journalInfoBlock * vh.blockSize + 36))).endian
      = JOURNAL_ENDIAN)
    (hclean : (parseJH d (be64 d (vh.journalInfoBlock * vh.blockSize + 36))).start
      = (parseJH d (be64 d (vh.journalInfoBlock * vh.blockSize + 36))).jEnd) :
    journal_replay d vh repair = .ok (0, d, []) := by
  rw [journal_replay]
  simp only []
  rw [if_neg (by simp [hflags]), if_neg (by simp [hmagic, hendian]),
    if_pos hclean]

/-- Concrete clean journal: info block at byte 512 pointing at offset 2048,
a well-formed header there with `start = end = 200`. -/
def jdev1 : Device := fun n =>
  if n = 554 then 8
  else if n = 562 then 16
  else if n = 2048 then 74 else if n = 2049 then 78
  else if n = 2050 then 76 else if n = 2051 then 120
  else if n = 2052 then 18 else if n = 2053 then 52
  else if n = 2054 then 86 else if n = 2055 then 120
  else if n = 2063 then 200 else if n = 2071 then 200
  else 0

def jvh1 : SimpleVH := ⟨0x2000, 1, 512, 16⟩

theorem journal_replay_clean_is_noop_witness :
    journal_replay jdev1 jvh1 true = .ok (0, jdev1, []) ∧
    journal_replay jdev1 jvh1 false = .ok (0, jdev1, []) :=
  ⟨journal_replay_clean_is_noop jdev1 jvh1 true (by decide) (by decide)
      (by decide) (by decide),
    journal_replay_clean_is_noop jdev1 jvh1 false (by decide) (by decide)
      (by decide) (by decide)⟩

/-- Concrete journal whose header has `start = 300 > end = 132` but which
passes every check `journal_is_valid` actually performs (its checksum field
holds the correct zero-checksum word sum). -/
def jdev6 : Device := fun n =>
  if n = 554 then 8
  else if n = 562 then 4
  else if n = 2048 then 74 else if n = 2049 then 78
  else if n = 2050 then 76 else if n = 2051 then 120
  else if n = 2052 then 18 else if n = 2053 then 52
  else if n = 2054 then 86 else if n = 2055 then 120
  else if n = 2062 then 1 else if n = 2063 then 44
  else if n = 2071 then 132
  else if n = 2078 then 4
  else if n = 2084 then 92 else if n = 2085 then 130
  else if n = 2086 then 168 else if n = 2087 then 160
  else 0

def jvh6 : SimpleVH := ⟨0x2000, 1, 512, 16⟩

/-- C6 counterexample: `journal_is_valid` accepts (returns 1 on) a journal
header with `start = 300 > end = 132`; the claimed rejection of
`start > end` does not happen. -/
theorem journal_is_valid_accepts_start_gt_end :
    (parseJH jdev6 2048).start = 300 ∧ (parseJH jdev6 2048).jEnd = 132 ∧
    journal_is_valid jdev6 jvh6 = 1 := by
  refine ⟨by decide, by decide, by decide⟩

/-- C6 amended: `journal_is_valid` accepts a journal header only when
`start ≤ size` and `end ≤ size` hold; it never compares `start` with
`end`, so headers with `start > end` can be accepted. -/
theorem journal_is_valid_bounds (d : Device) (vh : SimpleVH)
    (h : journal_is_valid d vh = 1) :
    (parseJH d (be64 d (vh.journalInfoBlock * vh.blockSize + 36))).start ≤
      (parseJH d (be64 d (vh.journalInfoBlock * vh.blockSize + 36))).size ∧
    (parseJH d (be64 d (vh.journalInfoBlock * vh.blockSize + 36))).jEnd ≤
      (parseJH d (be64 d (vh.journalInfoBlock * vh.blockSize + 36))).size := by
  have key : ∀ (jh : JournalHeader) (jSize calcCk : Nat),
      journal_header_checks jh jSize calcCk = 1 →
      jh.start ≤ jh.size ∧ jh.jEnd ≤ jh.size := by
    intro jh jSize calcCk hc
    rw [journal_header_checks] at hc
    split at hc
    · exact absurd hc (by decide)
    · split at hc
      · exact absurd hc (by decide)
      · split at hc
        · exact absurd hc (by decide)
        · split at hc
          · exact absurd hc (by decide)
          · next hb =>
            push_neg at hb
            exact hb
  rw [journal_is_valid] at h
  split at h
  · exact absurd h (by decide)
  · split at h
    · exact absurd h (by decide)
    · split at h
      · exact absurd h (by decide)
      · simp only [] at h
        split at h
        · exact absurd h (by decide)
        · split at h
          · exact absurd h (by decide)
          · split at h
            · exact absurd h (by decide)
            · split at h
              · exact absurd h (by decide)
              · split at h
                · exact absurd h (by decide)
                · exact key _ _ _ h

theorem journal_is_valid_bounds_witness :
    (parseJH jdev6 (be64 jdev6 (jvh6.journalInfoBlock * jvh6.blockSize + 36))).start ≤
      (parseJH jdev6 (be64 jdev6 (jvh6.journalInfoBlock * jvh6.blockSize + 36))).size ∧
    (parseJH jdev6 (be64 jdev6 (jvh6.journalInfoBlock * jvh6.blockSize + 36))).jEnd ≤
      (parseJH jdev6 (be64 jdev6 (jvh6.journalInfoBlock * jvh6.blockSize + 36))).size :=
  journal_is_valid_bounds jdev6 jvh6 (by decide)

set_option maxHeartbeats 2000000 in
set_option maxRecDepth 8000 in
/-- C7: when `journal_replay` in repair mode succeeds having replayed at
least one transaction, the journal header on the resulting device has its
`start` equal to the `end` value read at the beginning of the replay, its
checksum equal to the word-sum of the header with the checksum field
zeroed, and the trace ends with the header write immediately followed by a
sync. -/
theorem journal_replay_repair_final_header (d : Device) (vh : SimpleVH)
    (h : 0 < journal_replay_code d vh true) :
    (parseJH (replayDev d vh true)
        (be64 d (vh.journalInfoBlock * vh.blockSize + 36))).start =
      (parseJH d (be64 d (vh.journalInfoBlock * vh.blockSize + 36))).jEnd ∧
    (parseJH (replayDev d vh true)
        (be64 d (vh.journalInfoBlock * vh.blockSize + 36))).checksum =
      journal_calculate_checksum (serializeJH
        { parseJH (replayDev d vh true)
            (be64 d (vh.journalInfoBlock * vh.blockSize + 36)) with checksum := 0 }) ∧
    ∃ tr0, replayTrace d vh true = tr0 ++
      [Ev.write (be64 d (vh.journalInfoBlock * vh.blockSize + 36)) 132, Ev.sync] := by
  cases hrun : journal_replay d vh true with
  | error e =>
    obtain ⟨e1, e2, e3⟩ := e
    rw [journal_replay_code, hrun] at h
    simp [jerrCode] at h
  | ok v =>
    obtain ⟨n, d2, tr⟩ := v
    have hn : 0 < n := by
      rw [journal_replay_code, hrun] at h
      simpa using h
    have hdev : replayDev d vh true = d2 := by rw [replayDev, hrun]
    have htr : replayTrace d vh true = tr := by rw [replayTrace, hrun]
    rw [hdev, htr]
    rw [journal_replay] at hrun
    simp only [] at hrun
    split at hrun
    · simp at hrun
    · split at hrun
      · split at hrun <;> simp at hrun
      · split at hrun
        · simp only [Except.ok.injEq, Prod.mk.injEq] at hrun
          omega
        · cases hblk : replayTxns
              (be64 d (vh.journalInfoBlock * vh.blockSize + 36))
              (vh.journalInfoBlock * vh.blockSize)
              (readBytes d (vh.journalInfoBlock * vh.blockSize) 484)
              vh.blockSize vh.totalBlocks
              (parseJH d (be64 d (vh.journalInfoBlock * vh.blockSize + 36))).size
              (parseJH d (be64 d (vh.journalInfoBlock * vh.blockSize + 36))).jEnd
              true 1000
              (parseJH d (be64 d (vh.journalInfoBlock * vh.blockSize + 36))).start
              0 d [] with
          | error e2 =>
            rw [hblk] at hrun
            simp at hrun
          | ok v2 =>
            obtain ⟨replayed, dL, trL⟩ := v2
            rw [hblk] at hrun
            simp only [] at hrun
            by_cases hpos : replayed > 0
            · rw [if_pos ⟨trivial, hpos⟩] at hrun
              simp only [Except.ok.injEq, Prod.mk.injEq] at hrun
              obtain ⟨hn2, hd2, htr2⟩ := hrun
              subst hd2
              subst htr2
              rw [parseJH_writeBytes _ _ _
                (be32_lt _ _) (be32_lt _ _) (be64_lt _ _) (be64_lt _ _)
                (be64_lt _ _) (be32_lt _ _)
                (journal_calculate_checksum_lt _) (be32_lt _ _)
                (readBytes_length _ _ _)
                (fun b hb => readBytes_mem_lt _ _ _ hb)]
              exact ⟨rfl, rfl, trL, rfl⟩
            · rw [if_neg (by simp [hpos])] at hrun
              simp only [Except.ok.injEq, Prod.mk.injEq] at hrun
              omega

/-- Concrete journal with one pending transaction (start 200, end 772):
a block list of one block targeting volume block 10 with a 512-byte
payload, and a correct block-list checksum. -/
def jdev7 : Device := fun n =>
  if n = 554 then 8
  else if n = 562 then 4
  else if n = 2048 then 74 else if n = 2049 then 78
  else if n = 2050 then 76 else if n = 2051 then 120
  else if n = 2052 then 18 else if n = 2053 then 52
  else if n = 2054 then 86 else if n = 2055 then 120
  else if n = 2063 then 200
  else if n = 2070 then 3 else if n = 2071 then 4
  else if n = 2078 then 4
  else if n = 2248 then 2 else if n = 2249 then 0
  else if n = 2251 then 1
  else if n = 2252 then 2 else if n = 2253 then 0
  else if n = 2254 then 0 else if n = 2255 then 1
  else if n = 2295 then 10
  else if n = 2298 then 2
  else if n = 2306 then 3 else if n = 2307 then 4
  else 0

def jvh7 : SimpleVH := ⟨0x2000, 1, 512, 16⟩

theorem journal_replay_repair_final_header_witness :
    (parseJH (replayDev jdev7 jvh7 true)
        (be64 jdev7 (jvh7.journalInfoBlock * jvh7.blockSize + 36))).start =
      (parseJH jdev7 (be64 jdev7 (jvh7.journalInfoBlock * jvh7.blockSize + 36))).jEnd ∧
    (parseJH (replayDev jdev7 jvh7 true)
        (be64 jdev7 (jvh7.journalInfoBlock * jvh7.blockSize + 36))).checksum =
      journal_calculate_checksum (serializeJH
        { parseJH (replayDev jdev7 jvh7 true)
            (be64 jdev7 (jvh7.journalInfoBlock * jvh7.blockSize + 36)) with checksum := 0 }) ∧
    ∃ tr0, replayTrace jdev7 jvh7 true = tr0 ++
      [Ev.write (be64 jdev7 (jvh7.journalInfoBlock * jvh7.blockSize + 36)) 132, Ev.sync] :=
  journal_replay_repair_final_header jdev7 jvh7 (by decide)

/-- C10: when `journal_replay` in repair mode detects a corrupt journal
header (bad magic or endian sentinel) or a block-list-header checksum
mismatch, it does not leave the volume unchanged: before returning the
error it writes the journal info block back with the `NEEDS_INIT` flag
(bit 1) set. -/
theorem journal_replay_corruption_marks_need_init :
    (∀ (d : Device) (vh : SimpleVH),
      be32 d (vh.journalInfoBlock * vh.blockSize) &&& 1 = 0 →
      ((parseJH d (be64 d (vh.journalInfoBlock * vh.blockSize + 36))).magic
          ≠ JOURNAL_MAGIC ∨
       (parseJH d (be64 d (vh.journalInfoBlock * vh.blockSize + 36))).endian
          ≠ JOURNAL_ENDIAN) →
      replayErr d vh true = some .badHeader ∧
      be32 (replayDev d vh true) (vh.journalInfoBlock * vh.blockSize) &&& 2 ≠ 0 ∧
      replayTrace d vh true =
        [Ev.write (vh.journalInfoBlock * vh.blockSize) 484]) ∧
    (∀ (d : Device) (vh : SimpleVH),
      replayErr d vh true = some .blhChecksum →
      be32 (replayDev d vh true) (vh.journalInfoBlock * vh.blockSize) &&& 2 ≠ 0 ∧
      ∃ tr0, replayTrace d vh true =
        tr0 ++ [Ev.write (vh.journalInfoBlock * vh.blockSize) 484]) := by
  constructor
  · intro d vh hflags hbad
    have hrun : journal_replay d vh true = .error (.badHeader,
        writeBytes d (vh.journalInfoBlock * vh.blockSize)
          (needInitBytes (readBytes d (vh.journalInfoBlock * vh.blockSize) 484)),
        [Ev.write (vh.journalInfoBlock * vh.blockSize) 484]) := by
      rw [journal_replay]
      simp only []
      rw [if_neg (by simp [hflags]), if_pos hbad]
      exact if_pos trivial
    refine ⟨by rw [replayErr, hrun], ?_, by rw [replayTrace, hrun]⟩
    rw [replayDev, hrun]
    exact needInit_flag_set d _ _
  · intro d vh herr
    rcases hrun : journal_replay d vh true with ⟨e, d2, tr2⟩ | v
    · rw [replayErr, hrun] at herr
      simp only [Option.some.injEq] at herr
      subst herr
      have hdev : replayDev d vh true = d2 := by rw [replayDev, hrun]
      have htr : replayTrace d vh true = tr2 := by rw [replayTrace, hrun]
      rw [hdev, htr]
      rw [journal_replay] at hrun
      simp only [] at hrun
      split at hrun
      · simp at hrun
      · split at hrun
        · split at hrun <;> simp only [Except.error.injEq, Prod.mk.injEq] at hrun
          · exact absurd hrun.1 (by decide)
          · exact absurd hrun.1 (by decide)
        · split at hrun
          · simp at hrun
          · cases hblk : replayTxns
                (be64 d (vh.journalInfoBlock * vh.blockSize + 36))
                (vh.journalInfoBlock * vh.blockSize)
                (readBytes d (vh.journalInfoBlock * vh.blockSize) 484)
                vh.blockSize vh.totalBlocks
                (parseJH d (be64 d (vh.journalInfoBlock * vh.blockSize + 36))).size
                (parseJH d (be64 d (vh.journalInfoBlock * vh.blockSize + 36))).jEnd
                true 1000
                (parseJH d (be64 d (vh.journalInfoBlock * vh.blockSize + 36))).start
                0 d [] with
            | error e2 =>
              rw [hblk] at hrun
              obtain ⟨e2a, e2b, e2c⟩ := e2
              simp only [Except.error.injEq, Prod.mk.injEq] at hrun
              obtain ⟨he, hd, htr2⟩ := hrun
              subst he; subst hd; subst htr2
              exact replayTxns_checksum_marks _ _ _ _ _ _ _ _ _ _ _ _ _ _ hblk
            | ok v2 =>
              obtain ⟨replayed, dL, trL⟩ := v2
              rw [hblk] at hrun
              simp only [] at hrun
              by_cases hpos : replayed > 0
              · rw [if_pos ⟨trivial, hpos⟩] at hrun
                simp at hrun
              · rw [if_neg (by simp [hpos])] at hrun
                simp at hrun
    · rw [replayErr, hrun] at herr
      simp at herr

/-- All-zero device: the journal header read there has magic 0, so the
`badHeader` path of the replay fires. -/
def zeroDev : Device := fun _ => 0

def jvhA : SimpleVH := ⟨0x2000, 1, 512, 16⟩

/-- Concrete journal whose first block-list header stores checksum
`0x01000000` while the computed zero-checksum sum is 0: the `blhChecksum`
path of the replay fires. -/
def jdev10 : Device := fun n =>
  if n = 554 then 8
  else if n = 562 then 4
  else if n = 2048 then 74 else if n = 2049 then 78
  else if n = 2050 then 76 else if n = 2051 then 120
  else if n = 2052 then 18 else if n = 2053 then 52
  else if n = 2054 then 86 else if n = 2055 then 120
  else if n = 2063 then 200
  else if n = 2070 then 3 else if n = 2071 then 4
  else if n = 2078 then 4
  else if n = 2252 then 1
  else 0

def jvh10 : SimpleVH := ⟨0x2000, 1, 512, 16⟩

theorem journal_replay_corruption_marks_need_init_witness :
    (replayErr zeroDev jvhA true = some .badHeader ∧
      be32 (replayDev zeroDev jvhA true)
        (jvhA.journalInfoBlock * jvhA.blockSize) &&& 2 ≠ 0 ∧
      replayTrace zeroDev jvhA true =
        [Ev.write (jvhA.journalInfoBlock * jvhA.blockSize) 484]) ∧
    (be32 (replayDev jdev10 jvh10 true)
        (jvh10.journalInfoBlock * jvh10.blockSize) &&& 2 ≠ 0 ∧
      ∃ tr0, replayTrace jdev10 jvh10 true =
        tr0 ++ [Ev.write (jvh10.journalInfoBlock * jvh10.blockSize) 484]) :=
  ⟨journal_replay_corruption_marks_need_init.1 zeroDev jvhA
      (by decide) (by decide),
    journal_replay_corruption_marks_need_init.2 jdev10 jvh10 (by decide)⟩

/-! ## HFS+ volume header check and repair (`src/src/fsck/hfsplus_check.c`)

`struct HFSPlus_VolumeHeader_Complete` is 512 bytes.  The structure below
holds (as decoded host-order values) exactly the fields that
`check_hfsplus_volume_header` and `repair_hfsplus_volume_header` read or
write; `catalogLogicalSize` and `extentsLogicalSize` are the
`logicalSize` fields of the catalog and extents fork data. -/

structure HFSPlusVolumeHeaderC where
  version : Nat
  attributes : Nat
  createDate : Nat
  checkedDate : Nat
  blockSize : Nat
  totalBlocks : Nat
  freeBlocks : Nat
  catalogLogicalSize : Nat
  extentsLogicalSize : Nat

/-- `HFSPLUS_DIRTY` as defined in `hfsplus_check.c` line 24: `0x8000`
(bit 15 of the attributes word). -/
def HFSPLUS_DIRTY : Nat := 0x8000

/-- The `version` prompt-fix of `check_hfsplus_volume_header`: under
`REPAIR && (YES || ask(...))` rewrite a wrong version to 4, counting one
fixed error. -/
def vh_fix_version (fix : Bool) (vh : HFSPlusVolumeHeaderC) :
    Nat × HFSPlusVolumeHeaderC :=
  if vh.version ≠ 4 ∧ fix = true then (1, { vh with version := 4 })
  else (0, vh)

/-- The free-blocks prompt-fix: when `freeBlocks > totalBlocks`, the
repair writes the conservative estimate `totalBlocks / 2`. -/
def vh_fix_free (fix : Bool) (e : Nat) (vh : HFSPlusVolumeHeaderC) :
    Nat × HFSPlusVolumeHeaderC :=
  if vh.freeBlocks > vh.totalBlocks ∧ fix = true
  then (e + 1, { vh with freeBlocks := vh.totalBlocks / 2 }) else (e, vh)

/-- The unset-creation-date prompt-fix: set it to the current HFS time. -/
def vh_fix_cr_unset (fix : Bool) (hfsNow : Nat) (e : Nat)
    (vh : HFSPlusVolumeHeaderC) : Nat × HFSPlusVolumeHeaderC :=
  if vh.createDate = 0 ∧ fix = true
  then (e + 1, { vh with createDate := hfsNow }) else (e, vh)

/-- The future-creation-date (Y2K40) prompt-fix: clamp to a safe 2030
date. -/
def vh_fix_cr_future (fix : Bool) (hfsNow hfs2030 : Nat) (e : Nat)
    (vh : HFSPlusVolumeHeaderC) : Nat × HFSPlusVolumeHeaderC :=
  if vh.createDate > hfsNow ∧ fix = true
  then (e + 1, { vh with createDate := hfs2030 }) else (e, vh)

/-- The dirty-bit step: in repair mode (no prompt) clear `HFSPLUS_DIRTY`
from the attributes word. -/
def vh_fix_dirty (repair : Bool) (e : Nat) (vh : HFSPlusVolumeHeaderC) :
    Nat × HFSPlusVolumeHeaderC :=
  if vh.attributes &&& HFSPLUS_DIRTY ≠ 0 ∧ repair = true
  then (e + 1, { vh with attributes := vh.attributes &&& 0xFFFF7FFF })
  else (e, vh)

/-- Embedding of `check_hfsplus_volume_header`.  `repair`/`yes` are the
`REPAIR`/`YES` option bits; `ua` is the operator's answer to an
interactive `ask` prompt; `hfsNow` is the current time in the HFS epoch
(already truncated to `uint32_t`), `hfs2030` the Y2K40 fallback date.
Returns the `errors_fixed` count (or -1 for a critical error) together
with the possibly modified in-memory header.  Verbose printing and the
informational B-tree size display are not modelled. -/
def check_hfsplus_volume_header (repair yes ua : Bool) (hfsNow hfs2030 : Nat)
    (vh : HFSPlusVolumeHeaderC) : Int × HFSPlusVolumeHeaderC :=
  let fix := repair && (yes || ua)
  let s1 := vh_fix_version fix vh
  if s1.2.blockSize = 0 ∨ s1.2.blockSize &&& (s1.2.blockSize - 1) ≠ 0 ∨
      s1.2.blockSize < 512 then (-1, s1.2)
  else if s1.2.totalBlocks = 0 then (-1, s1.2)
  else
    let s2 := vh_fix_free fix s1.1 s1.2
    let s3 := vh_fix_cr_unset fix hfsNow s2.1 s2.2
    let s4 := vh_fix_cr_future fix hfsNow hfs2030 s3.1 s3.2
    if s4.2.catalogLogicalSize > 0 ∧ s4.2.catalogLogicalSize < 4096
    then (-1, s4.2)
    else if s4.2.extentsLogicalSize > 0 ∧ s4.2.extentsLogicalSize < 4096
    then (-1, s4.2)
    else
      let s5 := vh_fix_dirty repair s4.1 s4.2
      ((s5.1 : Int), s5.2)

theorem vh_fix_version_pres (fix : Bool) (vh : HFSPlusVolumeHeaderC) :
    (vh_fix_version fix vh).2.blockSize = vh.blockSize ∧
    (vh_fix_version fix vh).2.totalBlocks = vh.totalBlocks ∧
    (vh_fix_version fix vh).2.freeBlocks = vh.freeBlocks ∧
    (vh_fix_version fix vh).2.attributes = vh.attributes ∧
    (vh_fix_version fix vh).2.catalogLogicalSize = vh.catalogLogicalSize ∧
    (vh_fix_version fix vh).2.extentsLogicalSize = vh.extentsLogicalSize := by
  rw [vh_fix_version]; split <;> exact ⟨rfl, rfl, rfl, rfl, rfl, rfl⟩

theorem vh_fix_free_pres (fix : Bool) (e : Nat) (vh : HFSPlusVolumeHeaderC) :
    (vh_fix_free fix e vh).2.attributes = vh.attributes ∧
    (vh_fix_free fix e vh).2.catalogLogicalSize = vh.catalogLogicalSize ∧
    (vh_fix_free fix e vh).2.extentsLogicalSize = vh.extentsLogicalSize := by
  rw [vh_fix_free]; split <;> exact ⟨rfl, rfl, rfl⟩

theorem vh_fix_free_val (fix : Bool) (e : Nat) (vh : HFSPlusVolumeHeaderC) :
    (vh_fix_free fix e vh).2.freeBlocks =
      if vh.freeBlocks > vh.totalBlocks ∧ fix = true
      then vh.totalBlocks / 2 else vh.freeBlocks := by
  rw [vh_fix_free]; split <;> simp_all

theorem vh_fix_cr_unset_pres (fix : Bool) (hfsNow e : Nat)
    (vh : HFSPlusVolumeHeaderC) :
    (vh_fix_cr_unset fix hfsNow e vh).2.attributes = vh.attributes ∧
    (vh_fix_cr_unset fix hfsNow e vh).2.freeBlocks = vh.freeBlocks ∧
    (vh_fix_cr_unset fix hfsNow e vh).2.catalogLogicalSize
      = vh.catalogLogicalSize ∧
    (vh_fix_cr_unset fix hfsNow e vh).2.extentsLogicalSize
      = vh.extentsLogicalSize := by
  rw [vh_fix_cr_unset]; split <;> exact ⟨rfl, rfl, rfl, rfl⟩

theorem vh_fix_cr_future_pres (fix : Bool) (hfsNow hfs2030 e : Nat)
    (vh : HFSPlusVolumeHeaderC) :
    (vh_fix_cr_future fix hfsNow hfs2030 e vh).2.attributes = vh.attributes ∧
    (vh_fix_cr_future fix hfsNow hfs2030 e vh).2.freeBlocks = vh.freeBlocks ∧
    (vh_fix_cr_future fix hfsNow hfs2030 e vh).2.catalogLogicalSize
      = vh.catalogLogicalSize ∧
    (vh_fix_cr_future fix hfsNow hfs2030 e vh).2.extentsLogicalSize
      = vh.extentsLogicalSize := by
  rw [vh_fix_cr_future]; split <;> exact ⟨rfl, rfl, rfl, rfl⟩

theorem and_mask_dirty_zero (a : Nat) : a &&& 0xFFFF7FFF &&& 0x8000 = 0 := by
  rw [Nat.and_assoc, show (0xFFFF7FFF : Nat) &&& 0x8000 = 0 by decide]
  simp

/-- After the dirty-bit step in repair mode, the dirty bit is always
clear: either it was cleared, or it was already clear. -/
theorem vh_fix_dirty_clears (e : Nat) (vh : HFSPlusVolumeHeaderC) :
    (vh_fix_dirty true e vh).2.attributes &&& 0x8000 = 0 := by
  rw [vh_fix_dirty]
  split
  · exact and_mask_dirty_zero vh.attributes
  · next hc =>
    simpa [HFSPLUS_DIRTY] using hc

/-- The dirty-bit step never touches `freeBlocks`. -/
theorem vh_fix_dirty_free (repair : Bool) (e : Nat)
    (vh : HFSPlusVolumeHeaderC) :
    (vh_fix_dirty repair e vh).2.freeBlocks = vh.freeBlocks := by
  rw [vh_fix_dirty]; split <;> rfl

/-- Embedding of `repair_hfsplus_volume_header`: stamp `checkedDate` with
the current HFS time (a `uint32_t`), then write the 512-byte header at
offset 1024, write the backup copy at
`(totalBlocks - 2) * blockSize + 1024` (`uint32_t` subtraction), and
sync. -/
def repair_hfsplus_volume_header (hfsNow : Nat) (vh : HFSPlusVolumeHeaderC) :
    HFSPlusVolumeHeaderC × List Ev :=
  let vh2 := { vh with checkedDate := hfsNow % 4294967296 }
  (vh2,
    [Ev.write 1024 512,
     Ev.write (((vh2.totalBlocks + 4294967296 - 2) % 4294967296) *
       vh2.blockSize + 1024) 512,
     Ev.sync])

/-- Embedding of `hfsplus_write_volume_header` from
`src/src/common/hfsplus_format.c`: the formatter writes the primary
512-byte `struct hfsplus_vh` at offset 1024 and the backup at
`(total_blocks - 1) * block_size + 1024` (no sync of its own). -/
def hfsplus_write_volume_header (blockSize totalBlocks : Nat) : List Ev :=
  [Ev.write 1024 512,
   Ev.write (((totalBlocks + 4294967296 - 1) % 4294967296) * blockSize + 1024)
     512]

/-- C4 counterexample: with 1024 blocks of 4096 bytes (device size
4194304, so `device_size - 1024 = 4193280`), the volume-header repair and
the journal disable write the alternate header at 4187136 and the
formatter writes it at 4191232 — none of the three writes it at
`device_size - 1024`. -/
theorem alternate_header_not_at_size_minus_1024 :
    (repair_hfsplus_volume_header 0
        ⟨4, 0, 0, 0, 4096, 1024, 100, 8192, 8192⟩).2 =
      [Ev.write 1024 512, Ev.write 4187136 512, Ev.sync] ∧
    (journal_disable ⟨0x2000, 5, 4096, 1024⟩).2 =
      [Ev.write 1024 112, Ev.write 4187136 112, Ev.sync] ∧
    hfsplus_write_volume_header 4096 1024 =
      [Ev.write 1024 512, Ev.write 4191232 512] ∧
    (4187136 : Nat) ≠ 1024 * 4096 - 1024 ∧
    (4191232 : Nat) ≠ 1024 * 4096 - 1024 := by
  refine ⟨by decide, by decide, by decide, by decide, by decide⟩

/-- C4 amended: the volume-header repair and `journal_disable` write the
alternate copy at byte offset `(totalBlocks - 2) * blockSize + 1024` and
the formatter writes it at `(totalBlocks - 1) * blockSize + 1024`; with
`device_size = totalBlocks * blockSize`, these equal
`device_size - 1024` exactly when `blockSize = 1024` (repair, disable)
resp. `blockSize = 2048` (format). -/
theorem alternate_header_offsets (hfsNow : Nat) (vh : HFSPlusVolumeHeaderC)
    (svh : SimpleVH) (h2 : 2 ≤ vh.totalBlocks)
    (hlt : vh.totalBlocks < 4294967296) (hbs : 512 ≤ vh.blockSize)
    (h2s : 2 ≤ svh.totalBlocks) (hlts : svh.totalBlocks < 4294967296)
    (hbss : 512 ≤ svh.blockSize) :
    (repair_hfsplus_volume_header hfsNow vh).2 =
      [Ev.write 1024 512,
       Ev.write ((vh.totalBlocks - 2) * vh.blockSize + 1024) 512, Ev.sync] ∧
    (journal_disable svh).2 =
      [Ev.write 1024 112,
       Ev.write ((svh.totalBlocks - 2) * svh.blockSize + 1024) 112, Ev.sync] ∧
    (hfsplus_write_volume_header vh.blockSize vh.totalBlocks =
      [Ev.write 1024 512,
       Ev.write ((vh.totalBlocks - 1) * vh.blockSize + 1024) 512]) ∧
    ((vh.totalBlocks - 2) * vh.blockSize + 1024 =
        vh.totalBlocks * vh.blockSize - 1024 ↔ vh.blockSize = 1024) ∧
    ((vh.totalBlocks - 1) * vh.blockSize + 1024 =
        vh.totalBlocks * vh.blockSize - 1024 ↔ vh.blockSize = 2048) := by
  have hmod2 : (vh.totalBlocks + 4294967296 - 2) % 4294967296 =
      vh.totalBlocks - 2 := by omega
  have hmod2s : (svh.totalBlocks + 4294967296 - 2) % 4294967296 =
      svh.totalBlocks - 2 := by omega
  have hmod1 : (vh.totalBlocks + 4294967296 - 1) % 4294967296 =
      vh.totalBlocks - 1 := by omega
  refine ⟨?_, ?_, ?_, ?_, ?_⟩
  · rw [repair_hfsplus_volume_header]
    simp only [hmod2]
  · rw [journal_disable]
    simp only [hmod2s]
  · rw [hfsplus_write_volume_header]
    simp only [hmod1]
  · have hsub : (vh.totalBlocks - 2) * vh.blockSize =
        vh.totalBlocks * vh.blockSize - 2 * vh.blockSize := by
      rw [Nat.sub_mul]
    have hge : 2 * vh.blockSize ≤ vh.totalBlocks * vh.blockSize :=
      Nat.mul_le_mul_right _ h2
    rw [hsub]
    omega
  · have hsub : (vh.totalBlocks - 1) * vh.blockSize =
        vh.totalBlocks * vh.blockSize - 1 * vh.blockSize := by
      rw [Nat.sub_mul]
    have hge : 1 * vh.blockSize ≤ vh.totalBlocks * vh.blockSize :=
      Nat.mul_le_mul_right _ (by omega)
    rw [hsub]
    omega

theorem alternate_header_offsets_witness :
    (repair_hfsplus_volume_header 7
        ⟨4, 0, 0, 0, 4096, 1024, 100, 8192, 8192⟩).2 =
      [Ev.write 1024 512, Ev.write ((1024 - 2) * 4096 + 1024) 512, Ev.sync] ∧
    (journal_disable ⟨0x2000, 5, 4096, 1024⟩).2 =
      [Ev.write 1024 112, Ev.write ((1024 - 2) * 4096 + 1024) 112, Ev.sync] ∧
    (hfsplus_write_volume_header 4096 1024 =
      [Ev.write 1024 512, Ev.write ((1024 - 1) * 4096 + 1024) 512]) ∧
    ((1024 - 2) * 4096 + 1024 = 1024 * 4096 - 1024 ↔ (4096 : Nat) = 1024) ∧
    ((1024 - 1) * 4096 + 1024 = 1024 * 4096 - 1024 ↔ (4096 : Nat) = 2048) :=
  alternate_header_offsets 7 ⟨4, 0, 0, 0, 4096, 1024, 100, 8192, 8192⟩
    ⟨0x2000, 5, 4096, 1024⟩ (by decide) (by decide) (by decide)
    (by decide) (by decide) (by decide)

/-- C5 counterexample: the dirty bit the checker manipulates is `0x8000`
(bit 15), not bit 11; in repair mode the header-check phase itself clears
it (before any later phase has run); and the final header update writes
primary then alternate with a single trailing sync — there is no sync
between the two copies, so the claimed order primary, sync, alternate,
sync does not happen. -/
theorem dirty_bit_and_write_order_counterexample :
    HFSPLUS_DIRTY ≠ 2 ^ 11 ∧ HFSPLUS_DIRTY = 2 ^ 15 ∧
    (check_hfsplus_volume_header true true false 1000 900
        ⟨4, 0x8000, 500, 0, 4096, 1024, 100, 8192, 8192⟩).2.attributes
      &&& 0x8000 = 0 ∧
    (repair_hfsplus_volume_header 7
        ⟨4, 0, 0, 0, 4096, 1024, 100, 8192, 8192⟩).2 =
      [Ev.write 1024 512, Ev.write 4187136 512, Ev.sync] ∧
    (repair_hfsplus_volume_header 7
        ⟨4, 0, 0, 0, 4096, 1024, 100, 8192, 8192⟩).2.count Ev.sync = 1 ∧
    (repair_hfsplus_volume_header 7
        ⟨4, 0, 0, 0, 4096, 1024, 100, 8192, 8192⟩).2 ≠
      [Ev.write 1024 512, Ev.sync, Ev.write 4187136 512, Ev.sync] := by
  refine ⟨by decide, by decide, by decide, by decide, by decide, by decide⟩

/-- C5 amended: in repair mode the checker clears the `0x8000` attribute
bit already during the header-check phase whenever it is set and the
critical header checks pass, and the final header update writes the
primary copy, then the alternate copy, then a single sync. -/
theorem dirty_bit_cleared_in_header_phase (yes ua : Bool)
    (hfsNow hfs2030 : Nat) (vh : HFSPlusVolumeHeaderC)
    (hbs : ¬(vh.blockSize = 0 ∨ vh.blockSize &&& (vh.blockSize - 1) ≠ 0 ∨
      vh.blockSize < 512))
    (htb : vh.totalBlocks ≠ 0)
    (hcat : ¬(vh.catalogLogicalSize > 0 ∧ vh.catalogLogicalSize < 4096))
    (hext : ¬(vh.extentsLogicalSize > 0 ∧ vh.extentsLogicalSize < 4096))
    (hdirty : vh.attributes &&& HFSPLUS_DIRTY ≠ 0) :
    (check_hfsplus_volume_header true yes ua hfsNow hfs2030 vh).2.attributes
      &&& 0x8000 = 0 ∧
    (repair_hfsplus_volume_header hfsNow vh).2 =
      [Ev.write 1024 512,
       Ev.write (((vh.totalBlocks + 4294967296 - 2) % 4294967296) *
         vh.blockSize + 1024) 512,
       Ev.sync] := by
  constructor
  · rw [check_hfsplus_volume_header]
    simp only []
    obtain ⟨hb, ht, -, -, hc1, he1⟩ :=
      vh_fix_version_pres (true && (yes || ua)) vh
    rw [hb, ht, if_neg hbs, if_neg htb]
    rw [(vh_fix_cr_future_pres _ _ _ _ _).2.2.1,
      (vh_fix_cr_unset_pres _ _ _ _).2.2.1, (vh_fix_free_pres _ _ _).2.1, hc1]
    rw [(vh_fix_cr_future_pres _ _ _ _ _).2.2.2,
      (vh_fix_cr_unset_pres _ _ _ _).2.2.2, (vh_fix_free_pres _ _ _).2.2, he1]
    rw [if_neg hcat, if_neg hext]
    exact vh_fix_dirty_clears _ _
  · rfl

theorem dirty_bit_cleared_in_header_phase_witness :
    (check_hfsplus_volume_header true true false 1000 900
        ⟨4, 0x8000, 500, 0, 4096, 1024, 100, 8192, 8192⟩).2.attributes
      &&& 0x8000 = 0 ∧
    (repair_hfsplus_volume_header 1000
        ⟨4, 0x8000, 500, 0, 4096, 1024, 100, 8192, 8192⟩).2 =
      [Ev.write 1024 512,
       Ev.write (((1024 + 4294967296 - 2) % 4294967296) * 4096 + 1024) 512,
       Ev.sync] :=
  dirty_bit_cleared_in_header_phase true false 1000 900
    ⟨4, 0x8000, 500, 0, 4096, 1024, 100, 8192, 8192⟩
    (by decide) (by decide) (by decide) (by decide) (by decide)

/-! ## HFS allocation bitmap check (`src/src/embedded/fsck/hfs_check.c`)

The `MDB` structure holds the Master Directory Block fields that
`check_mdb_enhanced`, `verify_allocation_blocks` and
`repair_allocation_bitmap` read or write (libhfs keeps them as decoded
host-order values). -/

structure MDB where
  drSigWord : Nat
  drCrDate : Nat
  drLsMod : Nat
  drVBMSt : Nat
  drAlBlkSiz : Nat
  drNmAlBlks : Nat
  drFreeBks : Nat

def HFS_SIGWORD : Nat := 0x4244

/-- `d_mtime` from `volume_mkfs.c`: Unix seconds to MacOS seconds. -/
def d_mtime (t : Nat) : Nat := t + 2082844800

/-- `d_ltime` from `stubs.c`: MacOS seconds to Unix seconds, clamped at
zero. -/
def d_ltime (m : Nat) : Nat := if m < 2082844800 then 0 else m - 2082844800

/-- The free-block count of `verify_allocation_blocks` and
`repair_allocation_bitmap` (hfs_check.c lines 883-908 and 963-984): the
triple loop over bitmap sectors (read with `l_getblock` at sector
`drVBMSt + i`, i.e. device byte `(drVBMSt + i) * 512`, per `stubs.c`),
bytes and bits counts exactly the blocks `n < drNmAlBlks` whose bitmap
bit `0x80 >> (n % 8)` in byte `drVBMSt * 512 + n / 8` is zero. -/
def countFreeHfs (d : Device) (vbmSt total : Nat) : Nat :=
  ((List.range total).filter
    (fun n => d (vbmSt * 512 + n / 8) % 256 &&& (128 >>> (n % 8)) == 0)).length

/-- Embedding of `verify_allocation_blocks`: one error when the reported
free count exceeds the total, one when it disagrees with the counted
value (read failures are not modelled; the system-block tally is
verbose-only output). -/
def verify_allocation_blocks (d : Device) (mdb : MDB) : Nat :=
  (if mdb.drFreeBks > mdb.drNmAlBlks then 1 else 0) +
  (if countFreeHfs d mdb.drVBMSt mdb.drNmAlBlks ≠ mdb.drFreeBks then 1 else 0)

/-- Embedding of `repair_allocation_bitmap`: recount and overwrite
`drFreeBks` with the counted value when they disagree. -/
def repair_allocation_bitmap (d : Device) (mdb : MDB) : Nat × MDB :=
  let actual := countFreeHfs d mdb.drVBMSt mdb.drNmAlBlks
  if mdb.drFreeBks ≠ actual then (1, { mdb with drFreeBks := actual })
  else (0, mdb)

/-- Embedding of `check_allocation_bitmap`: verify, then repair when
errors were found and repair mode is on; returns the error count from the
verify pass. -/
def check_allocation_bitmap (repair : Bool) (d : Device) (mdb : MDB) :
    Int × MDB :=
  let e := verify_allocation_blocks d mdb
  if e > 0 ∧ repair = true then ((e : Int), (repair_allocation_bitmap d mdb).2)
  else ((e : Int), mdb)

/-- Modelled from the spec (section 4.3, `countFree()`): the number of
zero bits in the on-disk allocation bitmap up to `totalBlocks`, bits
MSB-first within each byte, the bitmap starting at device byte `base`.
Stated only to compare the HFS+ checker's repair value against the
spec's counted value; the HFS+ checker itself never reads the bitmap. -/
def specCountFreeBits (d : Device) (base totalBlocks : Nat) : Nat :=
  ((List.range totalBlocks).filter
    (fun n => d (base + n / 8) % 256 &&& (128 >>> (n % 8)) == 0)).length

/-- Bitmap device for the C3 counterexample: byte 0 is `0xF8`
(blocks 0-4 used, 5-7 free), everything else zero. -/
def c3dev : Device := fun n => if n = 0 then 248 else 0

/-- C3 counterexample: an HFS+ volume header with `freeBlocks = 10 >
totalBlocks = 8` whose bitmap holds 3 free blocks.  The checker detects
the inconsistency but the repair writes `totalBlocks / 2 = 4`, not the
counted value 3; no bitmap count is ever performed on the HFS+ path. -/
theorem hfsplus_freeblocks_repair_not_counted :
    specCountFreeBits c3dev 0 8 = 3 ∧
    (check_hfsplus_volume_header true true false 1000 900
        ⟨4, 0, 500, 0, 4096, 8, 10, 8192, 8192⟩).2.freeBlocks = 4 ∧
    (4 : Nat) ≠ 3 := by
  refine ⟨by decide, by decide, by decide⟩

/-- C3 amended: on HFS, whenever the counted zero-bit total disagrees
with `drFreeBks`, the repair pass overwrites `drFreeBks` with exactly the
counted value; on HFS+, the checker never counts the bitmap — the only
free-block repair fires when `freeBlocks > totalBlocks` and writes the
estimate `totalBlocks / 2`, leaving `freeBlocks` unchanged otherwise. -/
theorem freeblocks_repair_semantics :
    (∀ (d : Device) (mdb : MDB),
      mdb.drFreeBks ≠ countFreeHfs d mdb.drVBMSt mdb.drNmAlBlks →
      (check_allocation_bitmap true d mdb).2.drFreeBks =
        countFreeHfs d mdb.drVBMSt mdb.drNmAlBlks) ∧
    (∀ (ua : Bool) (hfsNow hfs2030 : Nat) (vh : HFSPlusVolumeHeaderC),
      ¬(vh.blockSize = 0 ∨ vh.blockSize &&& (vh.blockSize - 1) ≠ 0 ∨
        vh.blockSize < 512) →
      vh.totalBlocks ≠ 0 →
      ¬(vh.catalogLogicalSize > 0 ∧ vh.catalogLogicalSize < 4096) →
      ¬(vh.extentsLogicalSize > 0 ∧ vh.extentsLogicalSize < 4096) →
      (check_hfsplus_volume_header true true ua hfsNow hfs2030 vh).2.freeBlocks =
        if vh.freeBlocks > vh.totalBlocks then vh.totalBlocks / 2
        else vh.freeBlocks) := by
  constructor
  · intro d mdb hne
    rw [check_allocation_bitmap]
    simp only []
    rw [if_pos ⟨by rw [verify_allocation_blocks]; split <;> simp [hne.symm],
      by trivial⟩]
    rw [repair_allocation_bitmap]
    simp only []
    rw [if_pos hne]
  · intro ua hfsNow hfs2030 vh hbs htb hcat hext
    rw [check_hfsplus_volume_header]
    simp only []
    obtain ⟨hb, ht, hf, -, hc1, he1⟩ :=
      vh_fix_version_pres (true && (true || ua)) vh
    rw [hb, ht, if_neg hbs, if_neg htb]
    rw [(vh_fix_cr_future_pres _ _ _ _ _).2.2.1,
      (vh_fix_cr_unset_pres _ _ _ _).2.2.1, (vh_fix_free_pres _ _ _).2.1, hc1]
    rw [(vh_fix_cr_future_pres _ _ _ _ _).2.2.2,
      (vh_fix_cr_unset_pres _ _ _ _).2.2.2, (vh_fix_free_pres _ _ _).2.2, he1]
    rw [if_neg hcat, if_neg hext]
    show (vh_fix_dirty true _ _).2.freeBlocks = _
    rw [vh_fix_dirty_free, (vh_fix_cr_future_pres _ _ _ _ _).2.1,
      (vh_fix_cr_unset_pres _ _ _ _).2.1, vh_fix_free_val, hf, ht]
    simp

theorem freeblocks_repair_semantics_witness :
    ((check_allocation_bitmap true c3dev ⟨0x4244, 500, 500, 3, 512, 8, 10⟩).2.drFreeBks =
      countFreeHfs c3dev (3 * 512) 8) ∧
    ((check_hfsplus_volume_header true true false 1000 900
        ⟨4, 0, 500, 0, 4096, 8, 10, 8192, 8192⟩).2.freeBlocks =
      if (10 : Nat) > 8 then 8 / 2 else 10) :=
  ⟨freeblocks_repair_semantics.1 c3dev ⟨0x4244, 500, 500, 3, 512, 8, 10⟩
      (by decide),
    freeblocks_repair_semantics.2 false 1000 900
      ⟨4, 0, 500, 0, 4096, 8, 10, 8192, 8192⟩
      (by decide) (by decide) (by decide) (by decide)⟩

/-! ## HFS MDB check and phase driver (`src/src/embedded/fsck/hfs_check.c`) -/

/-- Embedding of `ask` from `hfs_utils.c`: report-only mode answers no,
`YES` answers yes, otherwise the operator decides (`ua`). -/
def ask (repair yes ua : Bool) : Bool :=
  if repair = false then false else if yes = true then true else ua

/-- Signature prompt-fix of `check_mdb_enhanced`. -/
def mdb_fix_sig (a f : Bool) (mdb : MDB) : Bool × MDB :=
  if mdb.drSigWord ≠ HFS_SIGWORD ∧ a = true
  then (true, { mdb with drSigWord := HFS_SIGWORD }) else (f, mdb)

/-- Unset-creation-date prompt-fix. -/
def mdb_fix_cr_unset (a : Bool) (now : Nat) (f : Bool) (mdb : MDB) :
    Bool × MDB :=
  if mdb.drCrDate = 0 ∧ a = true
  then (true, { mdb with drCrDate := d_mtime now }) else (f, mdb)

/-- Future-creation-date prompt-fix. -/
def mdb_fix_cr_future (a : Bool) (now : Nat) (f : Bool) (mdb : MDB) :
    Bool × MDB :=
  if d_ltime mdb.drCrDate > now ∧ a = true
  then (true, { mdb with drCrDate := d_mtime now }) else (f, mdb)

/-- Unset-modify-date prompt-fix (copies the creation date). -/
def mdb_fix_mod_unset (a f : Bool) (mdb : MDB) : Bool × MDB :=
  if mdb.drLsMod = 0 ∧ a = true
  then (true, { mdb with drLsMod := mdb.drCrDate }) else (f, mdb)

/-- Future-modify-date prompt-fix. -/
def mdb_fix_mod_future (a : Bool) (now : Nat) (f : Bool) (mdb : MDB) :
    Bool × MDB :=
  if d_ltime mdb.drLsMod > now ∧ a = true
  then (true, { mdb with drLsMod := d_mtime now }) else (f, mdb)

/-- Modify-before-creation prompt-fix. -/
def mdb_fix_mod_before (a f : Bool) (mdb : MDB) : Bool × MDB :=
  if mdb.drLsMod < mdb.drCrDate ∧ a = true
  then (true, { mdb with drLsMod := mdb.drCrDate }) else (f, mdb)

/-- Bitmap-start prompt-fix (`drVBMSt` must be 3). -/
def mdb_fix_vbmst (a f : Bool) (mdb : MDB) : Bool × MDB :=
  if mdb.drVBMSt ≠ 3 ∧ a = true
  then (true, { mdb with drVBMSt := 3 }) else (f, mdb)

/-- The prompt-fix prefix of `check_mdb_enhanced`, a chain of seven
fix-steps threading the `fixed` flag. -/
def mdb_fixes (a : Bool) (now : Nat) (mdb : MDB) : Bool × MDB :=
  let s1 := mdb_fix_sig a false mdb
  let s2 := mdb_fix_cr_unset a now s1.1 s1.2
  let s3 := mdb_fix_cr_future a now s2.1 s2.2
  let s4 := mdb_fix_mod_unset a s3.1 s3.2
  let s5 := mdb_fix_mod_future a now s4.1 s4.2
  let s6 := mdb_fix_mod_before a s5.1 s5.2
  mdb_fix_vbmst a s6.1 s6.2

/-- Embedding of `check_mdb_enhanced`: the sequence of prompt-fixes, then
the critical validation of `drAlBlkSiz` (zero or not a power of two) and
`drNmAlBlks` (zero), either of which returns -1 with no repair attempted.
The trailing initialization of the extents/catalog pseudo-files copies
MDB fields into runtime structures and does not alter the MDB, so it is
not modelled. -/
def mdb_criticals (s7 : Bool × MDB) : Int × MDB :=
  if s7.2.drAlBlkSiz = 0 ∨ s7.2.drAlBlkSiz &&& (s7.2.drAlBlkSiz - 1) ≠ 0
  then (-1, s7.2)
  else if s7.2.drNmAlBlks = 0 then (-1, s7.2)
  else (if s7.1 = true then 1 else 0, s7.2)

def check_mdb_enhanced (repair yes ua : Bool) (now : Nat) (mdb : MDB) :
    Int × MDB :=
  mdb_criticals (mdb_fixes (ask repair yes ua) now mdb)

theorem mdb_fix_sig_pres (a f : Bool) (mdb : MDB) :
    (mdb_fix_sig a f mdb).2.drAlBlkSiz = mdb.drAlBlkSiz ∧
    (mdb_fix_sig a f mdb).2.drNmAlBlks = mdb.drNmAlBlks := by
  rw [mdb_fix_sig]; split <;> exact ⟨rfl, rfl⟩

theorem mdb_fix_cr_unset_pres (a : Bool) (now : Nat) (f : Bool) (mdb : MDB) :
    (mdb_fix_cr_unset a now f mdb).2.drAlBlkSiz = mdb.drAlBlkSiz ∧
    (mdb_fix_cr_unset a now f mdb).2.drNmAlBlks = mdb.drNmAlBlks := by
  rw [mdb_fix_cr_unset]; split <;> exact ⟨rfl, rfl⟩

theorem mdb_fix_cr_future_pres (a : Bool) (now : Nat) (f : Bool) (mdb : MDB) :
    (mdb_fix_cr_future a now f mdb).2.drAlBlkSiz = mdb.drAlBlkSiz ∧
    (mdb_fix_cr_future a now f mdb).2.drNmAlBlks = mdb.drNmAlBlks := by
  rw [mdb_fix_cr_future]; split <;> exact ⟨rfl, rfl⟩

theorem mdb_fix_mod_unset_pres (a f : Bool) (mdb : MDB) :
    (mdb_fix_mod_unset a f mdb).2.drAlBlkSiz = mdb.drAlBlkSiz ∧
    (mdb_fix_mod_unset a f mdb).2.drNmAlBlks = mdb.drNmAlBlks := by
  rw [mdb_fix_mod_unset]; split <;> exact ⟨rfl, rfl⟩

theorem mdb_fix_mod_future_pres (a : Bool) (now : Nat) (f : Bool) (mdb : MDB) :
    (mdb_fix_mod_future a now f mdb).2.drAlBlkSiz = mdb.drAlBlkSiz ∧
    (mdb_fix_mod_future a now f mdb).2.drNmAlBlks = mdb.drNmAlBlks := by
  rw [mdb_fix_mod_future]; split <;> exact ⟨rfl, rfl⟩

theorem mdb_fix_mod_before_pres (a f : Bool) (mdb : MDB) :
    (mdb_fix_mod_before a f mdb).2.drAlBlkSiz = mdb.drAlBlkSiz ∧
    (mdb_fix_mod_before a f mdb).2.drNmAlBlks = mdb.drNmAlBlks := by
  rw [mdb_fix_mod_before]; split <;> exact ⟨rfl, rfl⟩

theorem mdb_fix_vbmst_pres (a f : Bool) (mdb : MDB) :
    (mdb_fix_vbmst a f mdb).2.drAlBlkSiz = mdb.drAlBlkSiz ∧
    (mdb_fix_vbmst a f mdb).2.drNmAlBlks = mdb.drNmAlBlks := by
  rw [mdb_fix_vbmst]; split <;> exact ⟨rfl, rfl⟩

/-- The whole prompt-fix prefix leaves the two critical fields untouched. -/
theorem mdb_fixes_pres (a : Bool) (now : Nat) (mdb : MDB) :
    (mdb_fixes a now mdb).2.drAlBlkSiz = mdb.drAlBlkSiz ∧
    (mdb_fixes a now mdb).2.drNmAlBlks = mdb.drNmAlBlks := by
  simp only [mdb_fixes]
  constructor
  · rw [(mdb_fix_vbmst_pres _ _ _).1, (mdb_fix_mod_before_pres _ _ _).1,
      (mdb_fix_mod_future_pres _ _ _ _).1, (mdb_fix_mod_unset_pres _ _ _).1,
      (mdb_fix_cr_future_pres _ _ _ _).1, (mdb_fix_cr_unset_pres _ _ _ _).1,
      (mdb_fix_sig_pres _ _ _).1]
  · rw [(mdb_fix_vbmst_pres _ _ _).2, (mdb_fix_mod_before_pres _ _ _).2,
      (mdb_fix_mod_future_pres _ _ _ _).2, (mdb_fix_mod_unset_pres _ _ _).2,
      (mdb_fix_cr_future_pres _ _ _ _).2, (mdb_fix_cr_unset_pres _ _ _ _).2,
      (mdb_fix_sig_pres _ _ _).2]

/-- fsck exit codes from `fsck_hfs.h`. -/
def FSCK_OK : Int := 0
def FSCK_CORRECTED : Int := 1
def FSCK_UNCORRECTED : Int := 4

/-- Folding one later phase of `hfs_check_volume` into the
(errors_found, errors_corrected) accumulators, as the driver does for
the catalog, bitmap and B-tree phases: a negative result counts an
uncorrected error, a positive one a corrected error. -/
def hfs_phase_fold (acc : Bool × Bool) (r : Int) : Bool × Bool :=
  if r < 0 then (true, acc.2)
  else if r > 0 then (acc.1, true)
  else acc

/-- Embedding of the `hfs_check_volume` driver (`hfs_check.c` lines
133-180): run `check_mdb_enhanced`; a negative result aborts the run
before any later phase and exits FSCK_UNCORRECTED; otherwise the later
phases (given abstractly as the integer results `phases`) are folded in
and the exit code is FSCK_OK when no error was found, FSCK_CORRECTED
when every found error was corrected in repair mode, and
FSCK_UNCORRECTED otherwise. -/
def hfs_check_volume_phases (repair yes ua : Bool) (now : Nat)
    (mdb : MDB) (phases : List Int) : Int :=
  let r0 := check_mdb_enhanced repair yes ua now mdb
  if r0.1 < 0 then FSCK_UNCORRECTED
  else
    let acc0 : Bool × Bool :=
      if r0.1 > 0 then (false, true) else (false, false)
    let acc := phases.foldl hfs_phase_fold acc0
    if acc.1 = false ∧ acc.2 = false then FSCK_OK
    else if acc.1 = false ∧ repair = true then FSCK_CORRECTED
    else FSCK_UNCORRECTED

/-- **C8.** If the MDB has `drAlBlkSiz` zero or not a power of two, or
`drNmAlBlks` zero, `check_mdb_enhanced` returns -1 without touching
either field, and the driver exits FSCK_UNCORRECTED with no later phase
influencing the outcome — for every mode and every list of phase
results. -/
theorem mdb_critical_aborts (repair yes ua : Bool) (now : Nat)
    (mdb : MDB) (phases : List Int)
    (hbad : mdb.drAlBlkSiz = 0 ∨
            mdb.drAlBlkSiz &&& (mdb.drAlBlkSiz - 1) ≠ 0 ∨
            mdb.drNmAlBlks = 0) :
    (check_mdb_enhanced repair yes ua now mdb).1 = -1 ∧
    (check_mdb_enhanced repair yes ua now mdb).2.drAlBlkSiz
      = mdb.drAlBlkSiz ∧
    (check_mdb_enhanced repair yes ua now mdb).2.drNmAlBlks
      = mdb.drNmAlBlks ∧
    hfs_check_volume_phases repair yes ua now mdb phases
      = FSCK_UNCORRECTED := by
  have hA := (mdb_fixes_pres (ask repair yes ua) now mdb).1
  have hN := (mdb_fixes_pres (ask repair yes ua) now mdb).2
  have key : ∀ s7 : Bool × MDB,
      s7.2.drAlBlkSiz = 0 ∨
        s7.2.drAlBlkSiz &&& (s7.2.drAlBlkSiz - 1) ≠ 0 ∨
        s7.2.drNmAlBlks = 0 →
      (mdb_criticals s7).1 = -1 ∧ (mdb_criticals s7).2 = s7.2 := by
    intro s7 hb
    rw [mdb_criticals]
    rcases hb with h0 | hpow | hnum
    · rw [if_pos (Or.inl h0)]; exact ⟨rfl, rfl⟩
    · rw [if_pos (Or.inr hpow)]; exact ⟨rfl, rfl⟩
    · by_cases hcrit : s7.2.drAlBlkSiz = 0 ∨
          s7.2.drAlBlkSiz &&& (s7.2.drAlBlkSiz - 1) ≠ 0
      · rw [if_pos hcrit]; exact ⟨rfl, rfl⟩
      · rw [if_neg hcrit, if_pos hnum]; exact ⟨rfl, rfl⟩
  have hb7 : (mdb_fixes (ask repair yes ua) now mdb).2.drAlBlkSiz = 0 ∨
      (mdb_fixes (ask repair yes ua) now mdb).2.drAlBlkSiz &&&
        ((mdb_fixes (ask repair yes ua) now mdb).2.drAlBlkSiz - 1) ≠ 0 ∨
      (mdb_fixes (ask repair yes ua) now mdb).2.drNmAlBlks = 0 := by
    rw [hA, hN]; exact hbad
  have hk := key (mdb_fixes (ask repair yes ua) now mdb) hb7
  have hres1 : (check_mdb_enhanced repair yes ua now mdb).1 = -1 := by
    rw [check_mdb_enhanced]; exact hk.1
  have hres2 : (check_mdb_enhanced repair yes ua now mdb).2
      = (mdb_fixes (ask repair yes ua) now mdb).2 := by
    rw [check_mdb_enhanced]; exact hk.2
  refine ⟨hres1, by rw [hres2]; exact hA, by rw [hres2]; exact hN, ?_⟩
  simp only [hfs_check_volume_phases]
  rw [hres1, if_pos (by norm_num : (-1 : Int) < 0)]

/-- Witness for C8 at a concrete MDB with `drAlBlkSiz = 12` (not a power
of two). -/
theorem mdb_critical_aborts_witness :
    (12 = 0 ∨ (12 : Nat) &&& (12 - 1) ≠ 0 ∨ (100 : Nat) = 0) ∧
    ((check_mdb_enhanced true true false 0
        ⟨HFS_SIGWORD, 5, 5, 3, 12, 100, 10⟩).1 = -1 ∧
     (check_mdb_enhanced true true false 0
        ⟨HFS_SIGWORD, 5, 5, 3, 12, 100, 10⟩).2.drAlBlkSiz = 12 ∧
     (check_mdb_enhanced true true false 0
        ⟨HFS_SIGWORD, 5, 5, 3, 12, 100, 10⟩).2.drNmAlBlks = 100 ∧
     hfs_check_volume_phases true true false 0
        ⟨HFS_SIGWORD, 5, 5, 3, 12, 100, 10⟩ [1, 0] = FSCK_UNCORRECTED) :=
  ⟨by decide,
   mdb_critical_aborts true true false 0
     ⟨HFS_SIGWORD, 5, 5, 3, 12, 100, 10⟩ [1, 0] (by decide)⟩

/-! ## B-tree structure validation (`hfs_check.c` validate_btree_structure) -/

/-- Node kinds from `fsck_hfs.h`. -/
def ndIndxNode : Nat := 0
def ndLeafNode : Nat := 255

/-- B-tree header fields used by the walk (from the in-core `BTHdrRec`). -/
structure BTHeader where
  bthRoot : Nat
  bthFNode : Nat
  bthLNode : Nat
  bthNNodes : Nat
  bthNodeSize : Nat

/-- The node-descriptor fields the walk reads. `libhfs.h`/`apple.h` are
absent from this tree; the 14-byte descriptor size used in the
record-count bound is the classic hfsutils `NodeDescriptor`
(ndFLink 4 + ndBLink 4 + ndType 1 + ndNHeight 1 + ndNRecs 2 +
ndResv2 2). -/
structure NodeDesc where
  ndFLink : Nat
  ndType : Nat
  ndNRecs : Nat

/-- In-core B-tree: header plus node lookup; `none` models a failing
`bt_getnode`. -/
structure BTreeM where
  hdr : BTHeader
  nodes : Nat → Option NodeDesc

/-- The leaf-chain `while (node_num != 0)` loop of
`validate_btree_structure` (lines 722-778), fuel-indexed: `none` means
the fuel ran out with the loop still running, i.e. the C loop has not
terminated after that many iterations. Each iteration reads the node
(a failure counts one error and breaks), counts a bad node type and an
oversized record count, then follows `ndFLink`; the only cycle guard is
the comparison of the next node with `bthFNode`. -/
def walkLoop (bt : BTreeM) : Nat → Int → Nat → Option Int
  | _, errors, 0 => none
  | node_num, errors, fuel + 1 =>
    if node_num = 0 then some errors
    else
      match bt.nodes node_num with
      | none => some (errors + 1)
      | some nd =>
        let e1 := if nd.ndType ≠ ndLeafNode ∧ nd.ndType ≠ ndIndxNode
                  then errors + 1 else errors
        let e2 := if nd.ndNRecs > (bt.hdr.bthNodeSize - 14) / 4
                  then e1 + 1 else e1
        if nd.ndFLink = bt.hdr.bthFNode then some (e2 + 1)
        else walkLoop bt nd.ndFLink e2 fuel

/-- Embedding of `validate_btree_structure`: empty tree is valid,
out-of-range root is critical (-1), out-of-range first/last leaf
pointers count errors and suppress the walk, otherwise the leaf chain
is walked from `bthFNode`. -/
def validate_btree_structure (bt : BTreeM) (fuel : Nat) : Option Int :=
  if bt.hdr.bthNNodes = 0 then some 0
  else if bt.hdr.bthRoot ≥ bt.hdr.bthNNodes then some (-1)
  else
    let e0 : Int :=
      (if bt.hdr.bthFNode ≥ bt.hdr.bthNNodes then 1 else 0) +
      (if bt.hdr.bthLNode ≥ bt.hdr.bthNNodes then 1 else 0)
    if bt.hdr.bthFNode > 0 ∧ e0 = 0
    then walkLoop bt bt.hdr.bthFNode e0 fuel
    else some e0

/-- A well-formed-looking B-tree whose leaf chain enters the two-cycle
2 → 3 → 2 after leaving the first leaf: every node is a leaf with a
legal record count, yet the chain never returns to `bthFNode` (node 1)
and never reaches 0. -/
def btCycle : BTreeM :=
  { hdr := { bthRoot := 0, bthFNode := 1, bthLNode := 3,
             bthNNodes := 4, bthNodeSize := 512 },
    nodes := fun n =>
      if n = 1 then some { ndFLink := 2, ndType := 255, ndNRecs := 1 }
      else if n = 2 then some { ndFLink := 3, ndType := 255, ndNRecs := 1 }
      else if n = 3 then some { ndFLink := 2, ndType := 255, ndNRecs := 1 }
      else none }

theorem walkLoop_btCycle_step2 (e : Int) (n : Nat) :
    walkLoop btCycle 2 e (n + 1) = walkLoop btCycle 3 e n := by
  rfl

theorem walkLoop_btCycle_step3 (e : Int) (n : Nat) :
    walkLoop btCycle 3 e (n + 1) = walkLoop btCycle 2 e n := by
  rfl

theorem walkLoop_btCycle_none (e : Int) :
    ∀ n : Nat, walkLoop btCycle 2 e n = none ∧
               walkLoop btCycle 3 e n = none := by
  intro n
  induction n with
  | zero => exact ⟨rfl, rfl⟩
  | succ m ih =>
    exact ⟨(walkLoop_btCycle_step2 e m).trans ih.2,
           (walkLoop_btCycle_step3 e m).trans ih.1⟩

/-- **C9.** The spec promises a visited-set cycle guard so the leaf-chain
walk terminates on every B-tree; the code only compares the next node
with `bthFNode`, so on `btCycle` — whose chain loops between nodes 2 and
3 without revisiting the first leaf — `validate_btree_structure`
exhausts any amount of fuel: the C `while` loop never exits. -/
theorem btree_walk_nonterminating (fuel : Nat) :
    validate_btree_structure btCycle fuel = none := by
  rw [validate_btree_structure]
  rw [if_neg (by decide), if_neg (by decide), if_pos (by constructor <;> decide)]
  cases fuel with
  | zero => rfl
  | succ m =>
    have h1 : walkLoop btCycle 1 0 (m + 1) = walkLoop btCycle 2 0 m := rfl
    calc walkLoop btCycle btCycle.hdr.bthFNode
          ((if btCycle.hdr.bthFNode ≥ btCycle.hdr.bthNNodes then 1 else 0) +
           (if btCycle.hdr.bthLNode ≥ btCycle.hdr.bthNNodes then 1 else 0))
          (m + 1)
        = walkLoop btCycle 2 0 m := h1
      _ = none := (walkLoop_btCycle_none 0 m).1

/-! ## HFS formatter vs. `hfs_read_volume_info` (`mkfs_hfs_format.c`,
`hfs_detect.c`, `hfs_detect.h`) -/

/-- The fields of `volume_params_t` used here; `total_allocation_blocks`
and `free_allocation_blocks` are `uint16_t` in the C struct, so the
assignments below truncate mod 2^16. -/
structure VolumeParams where
  device_size : Nat
  allocation_block_size : Nat
  total_allocation_blocks : Nat
  free_allocation_blocks : Nat
  catalog_file_size : Nat
  extents_file_size : Nat
  creation_date : Nat

/-- Embedding of `calculate_volume_parameters` (lines 336-395).
`hfs_get_safe_time()` is modelled by the parameter `now`. The
alignment `(x + 511) & ~511` on a nonnegative value is written
`(x + 511) / 512 * 512`. The assignment of `device_size /
allocation_block_size` into the `uint16_t` field truncates mod 2^16
before the `> 65535` clamp is tested, so that clamp can never fire. -/
def calculate_volume_parameters (device_size now : Nat) : VolumeParams :=
  let abs0 : Nat :=
    if device_size > 32 * 1024 * 1024 then
      let a := device_size / 65536 / 512 * 512
      let a := if a < 512 then 512 else a
      (a + 511) / 512 * 512
    else 512
  let tab := device_size / abs0 % 65536
  let abs1 := if tab > 65535 then (device_size / 65535 + 511) / 512 * 512
              else abs0
  let tab := if tab > 65535 then 65535 else tab
  let catalog := if tab > 1000 then tab / 250 * abs1 else 4 * abs1
  let extents := abs1
  let bitmap_blocks := ((tab + 7) / 8 + abs1 - 1) / abs1
  let catalog_blocks := (catalog + abs1 - 1) / abs1
  let extents_blocks := (extents + abs1 - 1) / abs1
  let free := (tab + 3 * 2 ^ 32 - bitmap_blocks - catalog_blocks
                - extents_blocks) % 2 ^ 32 % 65536
  { device_size := device_size, allocation_block_size := abs1,
    total_allocation_blocks := tab, free_allocation_blocks := free,
    catalog_file_size := catalog, extents_file_size := extents,
    creation_date := now }

/-- Embedding of `write_master_directory_block` (lines 439-617) as the
byte at each offset of the 512-byte MDB sector; offsets not assigned by
the C code stay 0 from the `memset`. `name` is the volume-name byte
string from the options. -/
def write_master_directory_block (p : VolumeParams) (name : List Nat) :
    Nat → Nat :=
  let hfs_date := (p.creation_date + 2082844800) % 2 ^ 32
  let bitmap_blocks := ((p.total_allocation_blocks + 7) / 8
    + p.allocation_block_size - 1) / p.allocation_block_size
  let catalog_blocks := (p.catalog_file_size + p.allocation_block_size - 1)
    / p.allocation_block_size
  let extents_blocks := (p.extents_file_size + p.allocation_block_size - 1)
    / p.allocation_block_size
  let alloc_ptr := (bitmap_blocks + catalog_blocks + extents_blocks) % 2 ^ 16
  let clump_size := p.allocation_block_size * 4 % 2 ^ 32
  let first_alloc := (3 + bitmap_blocks) % 2 ^ 16
  let name_len := if name.length > 27 then 27 else name.length
  fun i =>
    if i = 0 then 0x42 else if i = 1 then 0x44
    else if i = 2 then hfs_date >>> 24 &&& 0xFF
    else if i = 3 then hfs_date >>> 16 &&& 0xFF
    else if i = 4 then hfs_date >>> 8 &&& 0xFF
    else if i = 5 then hfs_date &&& 0xFF
    else if i = 6 then hfs_date >>> 24 &&& 0xFF
    else if i = 7 then hfs_date >>> 16 &&& 0xFF
    else if i = 8 then hfs_date >>> 8 &&& 0xFF
    else if i = 9 then hfs_date &&& 0xFF
    else if i = 10 then 0x01
    else if i = 14 then 0x00 else if i = 15 then 0x03
    else if i = 16 then alloc_ptr >>> 8 &&& 0xFF
    else if i = 17 then alloc_ptr &&& 0xFF
    else if i = 18 then p.total_allocation_blocks >>> 8 &&& 0xFF
    else if i = 19 then p.total_allocation_blocks &&& 0xFF
    else if i = 20 then p.allocation_block_size >>> 24 &&& 0xFF
    else if i = 21 then p.allocation_block_size >>> 16 &&& 0xFF
    else if i = 22 then p.allocation_block_size >>> 8 &&& 0xFF
    else if i = 23 then p.allocation_block_size &&& 0xFF
    else if i = 24 then clump_size >>> 24 &&& 0xFF
    else if i = 25 then clump_size >>> 16 &&& 0xFF
    else if i = 26 then clump_size >>> 8 &&& 0xFF
    else if i = 27 then clump_size &&& 0xFF
    else if i = 28 then first_alloc >>> 8 &&& 0xFF
    else if i = 29 then first_alloc &&& 0xFF
    else if i = 33 then 0x10
    else if i = 34 then p.free_allocation_blocks >>> 8 &&& 0xFF
    else if i = 35 then p.free_allocation_blocks &&& 0xFF
    else if i = 36 then name_len
    else if 37 ≤ i ∧ i < 37 + name_len then name.getD (i - 37) 0
    else if i = 91 then 0x01
    else if i = 130 then p.extents_file_size >>> 24 &&& 0xFF
    else if i = 131 then p.extents_file_size >>> 16 &&& 0xFF
    else if i = 132 then p.extents_file_size >>> 8 &&& 0xFF
    else if i = 133 then p.extents_file_size &&& 0xFF
    else if i = 134 then bitmap_blocks % 2 ^ 16 >>> 8 &&& 0xFF
    else if i = 135 then bitmap_blocks % 2 ^ 16 &&& 0xFF
    else if i = 136 then extents_blocks >>> 8 &&& 0xFF
    else if i = 137 then extents_blocks &&& 0xFF
    else if i = 146 then p.catalog_file_size >>> 24 &&& 0xFF
    else if i = 147 then p.catalog_file_size >>> 16 &&& 0xFF
    else if i = 148 then p.catalog_file_size >>> 8 &&& 0xFF
    else if i = 149 then p.catalog_file_size &&& 0xFF
    else if i = 150 then (bitmap_blocks + extents_blocks) % 2 ^ 16 >>> 8 &&& 0xFF
    else if i = 151 then (bitmap_blocks + extents_blocks) % 2 ^ 16 &&& 0xFF
    else if i = 152 then catalog_blocks >>> 8 &&& 0xFF
    else if i = 153 then catalog_blocks &&& 0xFF
    else 0

/-- The device after a fresh HFS format, as far as the volume-info
reader sees it: the formatter writes the MDB sector at byte 1024
(sector 2); `hfs_read_volume_info` reads only that sector. -/
def mkfs_hfs_device (p : VolumeParams) (name : List Nat) : Device :=
  fun i => if 1024 ≤ i ∧ i < 1536
           then write_master_directory_block p name (i - 1024) else 0

/-- Result fields of `hfs_read_volume_info`. -/
structure VolInfo where
  block_size : Nat
  total_blocks : Nat
  free_blocks : Nat
  volume_name : List Nat
  deriving DecidableEq

/-- Embedding of the HFS branch of `hfs_read_volume_info`
(`hfs_detect.c` lines 56-112), decoding the superblock at offset 1024
through the packed `struct hfs_mdb` of `hfs_detect.h` (the only
`hfs_detect.h` present in this tree; the `include/common` path the C
file names does not exist here). That struct has no `drAllocPtr`
member, so its fields sit at struct offsets drAlBlSt 16, drAlBlkSiz 18,
drClpSiz 22, drNmAlBlks 26, drNxtCNID 28, drFreeBks 32, drVN 34.
`drVN[0]` is a `char`; a byte ≥ 128 reads as negative, which `toNat`
sends to an empty name. The HFS+ branch is not modelled: the claim
exercises only the HFS path. -/
def hfs_read_volume_info (d : Device) : Option VolInfo :=
  if beAt d 1024 2 = HFS_SIGWORD then
    let lenByte := d (1024 + 34) % 256
    let lenRaw : Int := if lenByte < 128 then lenByte else (lenByte : Int) - 256
    let name_len : Int := if lenRaw > 27 then 27 else lenRaw
    some { block_size := beAt d (1024 + 18) 4,
           total_blocks := beAt d (1024 + 26) 2,
           free_blocks := beAt d (1024 + 32) 2,
           volume_name :=
             (List.range name_len.toNat).map (fun j => d (1024 + 35 + j)) }
  else none

/-- **C1.** Formatting a 4 MiB device with volume name "Test" and
reading it back: the formatter computes allocation block size 512 and
8192 allocation blocks and writes them at MDB offsets 20 and 18, but
`hfs_read_volume_info`, decoding through the shifted `struct hfs_mdb`,
reports block_size 536870912 and total_blocks 2048, and a volume name
that starts with the low byte of `drFreeBks` instead of "Test" — so the
read-back never matches the formatter's geometry, refuting the claim
(independently, the formatter leaves the catalog and extents B-trees
zeroed, per its own TODO, so a subsequent check is not clean). -/
theorem mkfs_readback_mismatch :
    (calculate_volume_parameters 4194304 0).allocation_block_size = 512 ∧
    (calculate_volume_parameters 4194304 0).total_allocation_blocks = 8192 ∧
    hfs_read_volume_info
        (mkfs_hfs_device (calculate_volume_parameters 4194304 0)
          [84, 101, 115, 116])
      = some { block_size := 536870912, total_blocks := 2048,
               free_blocks := 16,
               volume_name := 221 :: 4 :: 84 :: 101 :: 115 :: 116 ::
                 List.replicate 21 0 } ∧
    (536870912 ≠ 512 ∧ 2048 ≠ 8192 ∧
      (221 :: 4 :: 84 :: 101 :: 115 :: 116 :: List.replicate 21 0
        ≠ ([84, 101, 115, 116] : List Nat))) := by
  refine ⟨rfl, rfl, ?_, by decide⟩
  decide

end Hfs